import Mathlib

/-!
# LK8000: finish-sector crossing detection, speed to fly, screen scale

A shallow embedding of `InFinishSector`
(`Common/Source/Calc/Task/InFinishSector.cpp`), of `SpeedToFly`
(`Common/Source/Calc/SpeedToFly.cpp`), of the conversions `Units::ToUser`,
`Units::ToSys`, `Units::LongitudeToDMS`, `Units::LatitudeToDMS` and
`Units::TimeToTextDown` (`Common/Source/units.cpp`) and of the scale and
geometry functions of
`Common/Source/LKInterface/LKInitScreen.cpp`, and theorems about them.

Doubles are embedded as rationals with exact arithmetic: `InFinishSector` only
subtracts two bearings, normalises the difference and compares values with
constants, and every comparison of finite doubles is exact.  The square root
of the C library is an argument of the functions that call it.  The
function-local `static int LastInSector` becomes an explicit flag that is
passed in and returned together with the function's result.
-/

namespace LK8000

/-- Modelled from the spec: the declaration of `sector_type_t` is not among the
sources at hand.  A sector has "a geometry kind (CIRCLE, LINE, or FAI-90)";
`InFinishSector` tests for `CIRCLE`, then for `LINE`, and treats what remains
as the FAI 90 degree sector. -/
inductive sector_type_t where
  | CIRCLE
  | LINE
  | FAI90
  deriving DecidableEq, Repr

/-- Modelled from the spec: `AngleLimit180` is defined outside the sources at
hand.  It normalises an angle in degrees "into (-180°, 180°]" by whole
turns. -/
def AngleLimit180 (Theta : ℚ) : ℚ :=
  Theta - 360 * (⌈(Theta - 180) / 360⌉ : ℤ)

/-- What `InFinishSector` reads on one call: the task data guarded by
`CritSec_TaskData` and the results of the helpers it calls on the current fix.
`ValidFinish` is the value of `ValidFinish(Basic, Calculated)`,
`ValidTaskPointFast i` that of the macro of the same name, `DistanceBearing i`
the pair (distance, bearing) that `DistanceBearing` writes for the aircraft
position and the waypoint of task point `i`, and `InBound i` is
`Task[i].InBound`. -/
structure TaskEnv where
  ValidFinish : Bool
  ValidTaskPointFast : Int → Bool
  DistanceBearing : Int → ℚ × ℚ
  InBound : Int → ℚ
  FinishRadius : ℚ
  FinishLine : sector_type_t

/-- The local `approaching` of `InFinishSector` (lines 54-60), as a function
of the finish kind and the normalised relative bearing. -/
def approaching (FinishLine : sector_type_t) (AircraftBearing : ℚ) : Bool :=
  if FinishLine = sector_type_t.LINE then
    decide (AircraftBearing ≥ -90) && decide (AircraftBearing ≤ 90)
  else
    !(decide (AircraftBearing ≥ 135) || decide (AircraftBearing ≤ -135))

/-- The function `InFinishSector(Basic, Calculated, i)`.  The third argument is
the value of the static `LastInSector` on entry; the result is the returned
boolean paired with the value of `LastInSector` on exit. -/
def InFinishSector (env : TaskEnv) (i : Int) (LastInSector : Bool) : Bool × Bool :=
  if !env.ValidFinish then
    (false, LastInSector)
  else if !env.ValidTaskPointFast i then
    (false, LastInSector)
  else
    let FirstPointDistance := (env.DistanceBearing i).1
    let AircraftBearing := (env.DistanceBearing i).2
    let inrange := decide (FirstPointDistance < env.FinishRadius)
    let LastInSector := if !inrange then false else LastInSector
    if env.FinishLine = sector_type_t.CIRCLE then
      (inrange, LastInSector)
    else
      let AircraftBearing := AngleLimit180 (AircraftBearing - env.InBound i)
      let approaching := approaching env.FinishLine AircraftBearing
      if inrange then
        if LastInSector then
          if !approaching then
            (true, false)
          else
            (false, LastInSector)
        else
          if approaching then
            (false, true)
          else
            (false, LastInSector)
      else
        (false, false)

/-- The test `FirstPointDistance < FinishRadius` of line 40 for task point
`i`. -/
def inrange (env : TaskEnv) (i : Int) : Bool :=
  decide ((env.DistanceBearing i).1 < env.FinishRadius)

/-- The normalised relative bearing of line 50 for task point `i`. -/
def relBearing (env : TaskEnv) (i : Int) : ℚ :=
  AngleLimit180 ((env.DistanceBearing i).2 - env.InBound i)

/-- A sample environment: a finish of the given kind with radius 1000 at every
task index 0..9, the aircraft at distance `d` and bearing `brg` from each task
point, inbound course 0. -/
def sampleEnv (kind : sector_type_t) (d brg : ℚ) : TaskEnv :=
  { ValidFinish := true
    ValidTaskPointFast := fun i => decide (0 ≤ i) && decide (i < 10)
    DistanceBearing := fun _ => (d, brg)
    InBound := fun _ => 0
    FinishRadius := 1000
    FinishLine := kind }

/-- A sample environment whose task-level test fails: the LINE finish of
`sampleEnv` with the aircraft at distance 2000, outside the radius of 1000, and
`ValidFinish` false. -/
def invalidFinishEnv : TaskEnv :=
  { sampleEnv sector_type_t.LINE 2000 0 with ValidFinish := false }

/-- The value of `LastInSector` after a sequence of calls of `InFinishSector`,
each with its own task data, fix and task index, starting from the value
`s`. -/
def InFinishSector_flagAfter (ticks : List (TaskEnv × Int)) (s : Bool) : Bool :=
  ticks.foldl (fun flag t => (InFinishSector t.1 t.2 flag).2) s

/-- A call that arms the flag: a valid evaluation of a LINE or FAI-90 finish
that is inside the radius and approaching. -/
def armingTick (t : TaskEnv × Int) : Prop :=
  t.1.ValidFinish = true ∧ t.1.ValidTaskPointFast t.2 = true ∧
    t.1.FinishLine ≠ sector_type_t.CIRCLE ∧
    (t.1.DistanceBearing t.2).1 < t.1.FinishRadius ∧
    approaching t.1.FinishLine (relBearing t.1 t.2) = true

/-! ## Speed to fly (`Common/Source/Calc/SpeedToFly.cpp`) -/

/-- Modelled from the spec: `LowPassFilter` is defined outside the sources at
hand.  "`new = previous*(1-α) + flooredSpeed*α` — a single-pole exponential
filter". -/
def LowPassFilter (y_last x_in fact : ℚ) : ℚ :=
  y_last * (1 - fact) + x_in * fact

/-- What `SpeedToFly` reads on one call.  `FinalGlide`, `HeadWind`,
`NettoVario`, `Gload` and `VOpt` are fields of `Calculated`,
`AccelerationAvailable` and `AccelZ` fields of `Basic`, `ValidTaskPoint` is the
value of `ValidTaskPoint(ActiveWayPoint)`, `MACCREADY` and `CRUISE_EFFICIENCY`
are the globals of these names, `STF` and `Vminsink` are `GlidePolar::STF` and
the value returned by `GlidePolar::Vminsink()`, and `sqrt` is the square root
of the C library. -/
structure SpeedEnv where
  FinalGlide : Bool
  ValidTaskPoint : Bool
  HeadWind : ℚ
  NettoVario : ℚ
  AccelerationAvailable : Bool
  AccelZ : ℚ
  Gload : ℚ
  VOpt : ℚ
  MACCREADY : ℚ
  CRUISE_EFFICIENCY : ℚ
  STF : ℚ → ℚ → ℚ → ℚ
  Vminsink : ℚ
  sqrt : ℚ → ℚ

/-- The local `HeadWind` of `SpeedToFly` after lines 20-27: the head wind that
is passed to `GlidePolar::STF`. -/
def SpeedToFly_HeadWind (env : SpeedEnv) : ℚ :=
  let HeadWind : ℚ := 0
  if env.FinalGlide && env.ValidTaskPoint then
    if env.HeadWind ≠ -999 then
      env.HeadWind
    else
      HeadWind
  else
    HeadWind

/-- The local `VOptnew` of `SpeedToFly` after lines 30-42: the speed that is
handed to the low pass filter. -/
def SpeedToFly_VOptnew (env : SpeedEnv) : ℚ :=
  let VOptnew := env.STF env.MACCREADY env.NettoVario (SpeedToFly_HeadWind env)
  let VOptnew := VOptnew * env.CRUISE_EFFICIENCY
  if env.NettoVario > env.MACCREADY then
    let n := |if env.AccelerationAvailable then env.AccelZ else env.Gload|
    max VOptnew (env.Vminsink * env.sqrt n)
  else
    max VOptnew env.Vminsink

/-- The function `SpeedToFly(Basic, Calculated)`: the value it writes to
`Calculated->VOpt`. -/
def SpeedToFly (env : SpeedEnv) : ℚ :=
  LowPassFilter env.VOpt (SpeedToFly_VOptnew env) 0.6

/-- The load factor `n` of line 37. -/
def SpeedToFly_n (env : SpeedEnv) : ℚ :=
  |if env.AccelerationAvailable then env.AccelZ else env.Gload|

/-- The floor of the speed in the words of the specification: minimum sink
speed times the square root of the load factor when the air mass rises faster
than the MacCready setting, plain minimum sink speed otherwise. -/
def SpeedToFly_floor (env : SpeedEnv) : ℚ :=
  if env.NettoVario > env.MACCREADY then env.Vminsink * env.sqrt (SpeedToFly_n env)
  else env.Vminsink

/-- A binary search for the integer square root, `k` bits wide, above the
partial root `r`. -/
def isqrtBits (n : Nat) : Nat → Nat → Nat
  | 0, r => r
  | k + 1, r => if (r + 2 ^ k) * (r + 2 ^ k) ≤ n then isqrtBits n k (r + 2 ^ k)
      else isqrtBits n k r

/-- A sample square root on the rationals: the square root rounded down to
three decimals (for arguments below 2^44), 0 for negative arguments. -/
def sqrtMilli (x : ℚ) : ℚ :=
  (isqrtBits (⌊x * 1000000⌋).toNat 32 0 : ℚ) / 1000

/-- A sample glide polar: the speed to fly grows with the MacCready setting and
the head wind and falls with the netto vario. -/
def sampleSTF (mc netto headwind : ℚ) : ℚ :=
  30 + 2 * mc - 3 * netto + headwind / 2

/-- A sample call: cruise (not on final glide) in sinking air of 1 m/s with a
MacCready setting of 2 m/s, head wind 10, previous speed to fly 40, minimum
sink speed 22, measured load factor 4. -/
def sampleSpeedEnv : SpeedEnv :=
  { FinalGlide := false
    ValidTaskPoint := true
    HeadWind := 10
    NettoVario := -1
    AccelerationAvailable := true
    AccelZ := 4
    Gload := 1
    VOpt := 40
    MACCREADY := 2
    CRUISE_EFFICIENCY := 1
    STF := sampleSTF
    Vminsink := 22
    sqrt := sqrtMilli }

/-- The sample call at start-up of a glider with a minimum sink speed of 40:
the previous speed to fly is still 0. -/
def slowSpeedEnv : SpeedEnv :=
  { sampleSpeedEnv with VOpt := 0, Vminsink := 40 }

/-- The sample call for a glider with a minimum sink speed of 60, which is
above what the polar asks for. -/
def smoothSpeedEnv : SpeedEnv :=
  { sampleSpeedEnv with Vminsink := 60 }

/-- The sample call with a glide polar that returns non-physical values: a
speed to fly of -10 and a minimum sink speed of -5. -/
def negSinkEnv : SpeedEnv :=
  { sampleSpeedEnv with Vminsink := -5, STF := fun _ _ _ => -10 }

/-- The sample call in air rising at 3 m/s, above the MacCready setting of 2,
under a measured load factor of 4. -/
def liftSpeedEnv : SpeedEnv :=
  { sampleSpeedEnv with NettoVario := 3 }

/-- The sample call on final glide towards a valid task point. -/
def finalGlideEnv : SpeedEnv :=
  { sampleSpeedEnv with FinalGlide := true }

/-! ## Countdown text (`Common/Source/units.cpp`) -/

/-- What `Units::TimeToTextDown` produces: `negative` selects the sign string
and `first`, `second` are the two numbers handed to `lk::snprintf` for the
format `%s%02d:%02d`; `returned` is the value the function returns. -/
structure TimeDownText where
  negative : Bool
  first : Int
  second : Int
  returned : Bool
  deriving DecidableEq, Repr

/-- The function `Units::TimeToTextDown(text, cb, d)`.  `int` values are
integers, with the division and remainder of C (rounding towards zero);
`abs(d)` is the absolute value for every `int` other than `INT_MIN`, after
which no intermediate value leaves the range of `int`. -/
def TimeToTextDown (d : Int) : TimeDownText :=
  let negative := decide (d < 0)
  let dd := Int.tmod |d| (3600 * 24)
  let hours := Int.tdiv dd 3600
  let mins := Int.tdiv dd 60 - hours * 60
  let hours := Int.tmod hours 24
  let seconds := dd - mins * 60 - hours * 3600
  if hours = 0 then
    { negative := negative, first := mins, second := seconds, returned := false }
  else
    { negative := negative, first := hours, second := mins, returned := true }

/-! ## Screen geometry and scale (`Common/Source/LKInterface/LKInitScreen.cpp`) -/

/-- The constants `SCREEN_GEOMETRY_*` that `GetScreenGeometry` returns.  They
are declared in `ScreenGeometry.h`, outside the sources at hand; only their
names are used here. -/
inductive ScreenGeometry_t where
  | SCREEN_GEOMETRY_43
  | SCREEN_GEOMETRY_53
  | SCREEN_GEOMETRY_169
  | SCREEN_GEOMETRY_21
  deriving DecidableEq, Repr

/-- The loop `while (1)` of `GetScreenGeometry` (lines 300-307), run for at
most `fuel` rounds. -/
def GetScreenGeometry_loop : Nat → ℚ → Option ScreenGeometry_t
  | 0, _ => none
  | fuel + 1, ratio =>
    if ratio < 1.166 then some ScreenGeometry_t.SCREEN_GEOMETRY_21
    else if ratio < 1.500 then some ScreenGeometry_t.SCREEN_GEOMETRY_43
    else if ratio < 1.721 then some ScreenGeometry_t.SCREEN_GEOMETRY_53
    else if ratio < 1.888 then some ScreenGeometry_t.SCREEN_GEOMETRY_169
    else if ratio < 2.112 then some ScreenGeometry_t.SCREEN_GEOMETRY_21
    else GetScreenGeometry_loop fuel (ratio / 2)

/-- The function `GetScreenGeometry(x, y)`.  The result is `none` when
`LKASSERT(x > 0 && y > 0)` fails.  The ratio of two `unsigned int` is below
2^32, so 64 rounds of the loop are more than it can take. -/
def GetScreenGeometry (x y : Nat) : Option ScreenGeometry_t :=
  if x > 0 ∧ y > 0 then
    let ratio : ℚ := if x ≥ y then (x : ℚ) / (y : ℚ) else (y : ℚ) / (x : ℚ)
    GetScreenGeometry_loop 64 ratio
  else
    none

/-- The function `lround` of the C library: the nearest integer, halfway cases
rounded away from zero. -/
def lround (x : ℚ) : Int :=
  if 0 ≤ x then ⌊x + 1 / 2⌋ else -⌊-x + 1 / 2⌋

/-- The conversion of a `double` to `int`: the fractional part is dropped. -/
def truncToInt (x : ℚ) : Int :=
  if 0 ≤ x then ⌊x⌋ else ⌈x⌉

/-- The globals that the section "Calculate Screen Scale Factor" of
`InitLKScreen` writes. -/
structure ScreenScaleInfo where
  ScreenDScale : ℚ
  ScreenScale : Int
  ScreenIntScale : Bool

/-- The section "Calculate Screen Scale Factor" of `InitLKScreen` (lines
172-177), as a function of the screen size read at the top of the function. -/
def InitLKScreen (ScreenSizeX ScreenSizeY : Int) : ScreenScaleInfo :=
  let minsize := min ScreenSizeX ScreenSizeY
  let ScreenDScale := max (0.83 : ℚ) ((minsize : ℚ) / 240.0)
  let ScreenScale := max 1 (lround ScreenDScale)
  let ScreenIntScale := decide ((ScreenScale : ℚ) = ScreenDScale)
  { ScreenDScale := ScreenDScale, ScreenScale := ScreenScale,
    ScreenIntScale := ScreenIntScale }

/-- The function `GetScreenDensity()` on a platform without a native query
(neither `KOBO` nor `ANDROID`), as a function of the globals it reads and of
the square root of the C library. -/
def GetScreenDensity (sqrt : ℚ → ℚ) (DpiSize LcdSize : Nat)
    (ScreenSizeX ScreenSizeY : Int) : Int :=
  if DpiSize ≠ 0 then
    (DpiSize : Int)
  else
    truncToInt
      (sqrt ((ScreenSizeX * ScreenSizeX + ScreenSizeY * ScreenSizeY : Int) : ℚ) * 10 /
        (LcdSize : ℚ))

/-! ## Units and coordinates (`Common/Source/units.cpp`) -/

/-- The index type of the table `UnitDescriptors`.  The enumeration `Units_t`
is declared outside the sources at hand; its values are taken, in order, from
the comments of the rows of the table, `unUndef` to `unLastUnit`. -/
inductive Units_t where
  | unUndef
  | unKiloMeter
  | unNauticalMiles
  | unStatuteMiles
  | unKiloMeterPerHour
  | unKnots
  | unStatuteMilesPerHour
  | unMeterPerSecond
  | unFeetPerMinutes
  | unMeter
  | unFeet
  | unFligthLevel
  | unKelvin
  | unGradCelcius
  | unGradFahrenheit
  | unFeetPerSecond
  | unLastUnit
  deriving DecidableEq, Repr

/-- The structure `UnitDescriptor_t`. -/
structure UnitDescriptor_t where
  Name : String
  ToUserFact : ℚ
  ToUserOffset : ℚ

/-- The table `UnitDescriptors[unLastUnit + 1]`, indexed by the unit. -/
def UnitDescriptors : Units_t → UnitDescriptor_t
  | Units_t.unUndef => ⟨"", 1.0, 0⟩
  | Units_t.unKiloMeter => ⟨"km", 0.001, 0⟩
  | Units_t.unNauticalMiles => ⟨"nm", 1.0 / 1852, 0⟩
  | Units_t.unStatuteMiles => ⟨"mi", 1.0 / 1609.344, 0⟩
  | Units_t.unKiloMeterPerHour => ⟨"kh", 3.6, 0⟩
  | Units_t.unKnots => ⟨"kt", 1.0 / (1852.0 / 3600.0), 0⟩
  | Units_t.unStatuteMilesPerHour => ⟨"mh", 1.0 / (1609.344 / 3600.0), 0⟩
  | Units_t.unMeterPerSecond => ⟨"ms", 1.0, 0⟩
  | Units_t.unFeetPerMinutes => ⟨"fm", 1.0 / 0.3048 * 60.0, 0⟩
  | Units_t.unMeter => ⟨"m", 1.0, 0⟩
  | Units_t.unFeet => ⟨"ft", 1.0 / 0.3048, 0⟩
  | Units_t.unFligthLevel => ⟨"FL", 1.0 / 0.3048 / 100, 0⟩
  | Units_t.unKelvin => ⟨"K", 1.0, 0⟩
  | Units_t.unGradCelcius => ⟨"°C", 1.0, -273.15⟩
  | Units_t.unGradFahrenheit => ⟨"°F", 9.0 / 5.0, -459.67⟩
  | Units_t.unFeetPerSecond => ⟨"fs", 1.0 / 0.3048, 0⟩
  | Units_t.unLastUnit => ⟨"", 1.0, 0⟩

/-- The function `Units::ToUser(unit, value)`. -/
def ToUser (unit : Units_t) (value : ℚ) : ℚ :=
  let pU := UnitDescriptors unit
  value * pU.ToUserFact + pU.ToUserOffset

/-- The function `Units::ToSys(unit, value)`. -/
def ToSys (unit : Units_t) (value : ℚ) : ℚ :=
  let pU := UnitDescriptors unit
  (value - pU.ToUserOffset) / pU.ToUserFact

/-- What `Units::LongitudeToDMS` writes through its four pointers. -/
structure LongitudeDMS where
  dd : Int
  mm : Int
  ss : Int
  east : Bool
  deriving DecidableEq, Repr

/-- What `Units::LatitudeToDMS` writes through its four pointers. -/
structure LatitudeDMS where
  dd : Int
  mm : Int
  ss : Int
  north : Bool
  deriving DecidableEq, Repr

/-- The function `Units::LongitudeToDMS(Longitude, dd, mm, ss, east)`, in exact
arithmetic.  The conversions to `int` are defined for a longitude within the
range of `int`. -/
def LongitudeToDMS (Longitude : ℚ) : LongitudeDMS :=
  let sign : Int := if Longitude < 0 then 0 else 1
  let Longitude := |Longitude|
  let dd := truncToInt Longitude
  let Longitude := (Longitude - (dd : ℚ)) * 60.0
  let mm := truncToInt Longitude
  let Longitude := (Longitude - (mm : ℚ)) * 60.0
  let ss := truncToInt (Longitude + 0.5)
  let mm := if ss ≥ 60 then mm + 1 else mm
  let ss := if ss ≥ 60 then ss - 60 else ss
  let dd := if mm ≥ 60 then dd + 1 else dd
  let mm := if mm ≥ 60 then mm - 60 else mm
  { dd := dd, mm := mm, ss := ss, east := decide (sign = 1) }

/-- The function `Units::LatitudeToDMS(Latitude, dd, mm, ss, north)`, in exact
arithmetic.  The conversions to `int` are defined for a latitude within the
range of `int`. -/
def LatitudeToDMS (Latitude : ℚ) : LatitudeDMS :=
  let sign : Int := if Latitude < 0 then 0 else 1
  let Latitude := |Latitude|
  let dd := truncToInt Latitude
  let Latitude := (Latitude - (dd : ℚ)) * 60.0
  let mm := truncToInt Latitude
  let Latitude := (Latitude - (mm : ℚ)) * 60.0
  let ss := truncToInt (Latitude + 0.5)
  let mm := if ss ≥ 60 then mm + 1 else mm
  let ss := if ss ≥ 60 then ss - 60 else ss
  let dd := if mm ≥ 60 then dd + 1 else dd
  let mm := if mm ≥ 60 then mm - 60 else mm
  { dd := dd, mm := mm, ss := ss, north := decide (sign = 1) }

/-! ## Helper lemmas -/

/-- On valid task data `InFinishSector` is a function of `inrange`, of the
local `approaching` and of the incoming flag. -/
lemma InFinishSector_of_valid (env : TaskEnv) (i : Int) (s : Bool)
    (hF : env.ValidFinish = true) (hT : env.ValidTaskPointFast i = true) :
    InFinishSector env i s =
      if env.FinishLine = sector_type_t.CIRCLE then
        (inrange env i, inrange env i && s)
      else
        (inrange env i && s && !approaching env.FinishLine (relBearing env i),
         inrange env i && approaching env.FinishLine (relBearing env i)) := by
  unfold InFinishSector
  simp only [hF, hT, inrange, relBearing]
  by_cases hc : env.FinishLine = sector_type_t.CIRCLE
  · cases s <;> by_cases hd : (env.DistanceBearing i).1 < env.FinishRadius <;> simp [hc, hd]
  · cases s <;> by_cases hd : (env.DistanceBearing i).1 < env.FinishRadius <;>
      cases ha : approaching env.FinishLine
        (AngleLimit180 ((env.DistanceBearing i).2 - env.InBound i)) <;>
      simp [hc, hd, ha]

/-- When either validity test fails the call returns false and keeps the
flag. -/
lemma InFinishSector_of_invalid (env : TaskEnv) (i : Int) (s : Bool)
    (h : env.ValidFinish = false ∨ env.ValidTaskPointFast i = false) :
    InFinishSector env i s = (false, s) := by
  unfold InFinishSector
  rcases h with h | h
  · simp [h]
  · cases hF : env.ValidFinish <;> simp [h]

/-- An angle already in (-180, 180] is left as it is. -/
lemma AngleLimit180_of_mem (Theta : ℚ) (h1 : -180 < Theta) (h2 : Theta ≤ 180) :
    AngleLimit180 Theta = Theta := by
  have hc : ⌈(Theta - 180) / 360⌉ = 0 := by
    rw [Int.ceil_eq_iff]
    constructor
    · have : (-1 : ℚ) < (Theta - 180) / 360 := by
        rw [lt_div_iff₀ (by norm_num)]; linarith
      simpa using this
    · have : (Theta - 180) / 360 ≤ 0 := by
        apply div_nonpos_of_nonpos_of_nonneg <;> linarith
      simpa using this
  simp [AngleLimit180, hc]

/-- The normalised angle lies in (-180, 180]. -/
lemma AngleLimit180_mem (Theta : ℚ) :
    -180 < AngleLimit180 Theta ∧ AngleLimit180 Theta ≤ 180 := by
  obtain ⟨y, rfl⟩ : ∃ y : ℚ, Theta = 360 * y + 180 := ⟨(Theta - 180) / 360, by ring⟩
  have hy : (360 * y + 180 - 180) / 360 = y := by ring
  unfold AngleLimit180
  rw [hy]
  have h1 := Int.ceil_lt_add_one y
  have h2 := Int.le_ceil y
  constructor <;> linarith

/-- The LINE test of line 56 in terms of the order on angles. -/
lemma approaching_LINE_eq_true_iff (b : ℚ) :
    approaching sector_type_t.LINE b = true ↔ (-90 ≤ b ∧ b ≤ 90) := by
  simp [approaching]

/-- The FAI 90 degree test of line 59 in terms of the order on angles. -/
lemma approaching_FAI90_eq_true_iff (b : ℚ) :
    approaching sector_type_t.FAI90 b = true ↔ (-135 < b ∧ b < 135) := by
  simp [approaching]
  tauto

/-! ## The crossing rule of a LINE or FAI-90 finish -/

/-- C1: for a LINE or FAI-90 finish with valid task data, `InFinishSector`
returns true if and only if the aircraft is inside the radius, the flag
`LastInSector` was set before the call and the aircraft is not approaching on
this tick; and whenever it returns true the flag is cleared afterwards. -/
theorem InFinishSector_line_crossed_iff (env : TaskEnv) (i : Int) (s : Bool)
    (hF : env.ValidFinish = true) (hT : env.ValidTaskPointFast i = true)
    (hk : env.FinishLine = sector_type_t.LINE ∨ env.FinishLine = sector_type_t.FAI90) :
    ((InFinishSector env i s).1 = true ↔
        ((env.DistanceBearing i).1 < env.FinishRadius ∧ s = true ∧
          approaching env.FinishLine (relBearing env i) = false)) ∧
      ((InFinishSector env i s).1 = true → (InFinishSector env i s).2 = false) := by
  have hc : env.FinishLine ≠ sector_type_t.CIRCLE := by
    rcases hk with h | h <;> simp [h]
  rw [InFinishSector_of_valid env i s hF hT, if_neg hc]
  simp only [inrange]
  by_cases hd : (env.DistanceBearing i).1 < env.FinishRadius <;>
    cases s <;> cases approaching env.FinishLine (relBearing env i) <;> simp [hd]

/-- C1, at a concrete input: a LINE finish, the aircraft at distance 5 of a
radius 1000, flying away (relative bearing 180) with the flag set. -/
theorem InFinishSector_line_crossed_iff_witness :
    (sampleEnv sector_type_t.LINE 5 180).ValidFinish = true ∧
      (sampleEnv sector_type_t.LINE 5 180).ValidTaskPointFast 1 = true ∧
      (sampleEnv sector_type_t.LINE 5 180).FinishLine = sector_type_t.LINE ∧
      ((InFinishSector (sampleEnv sector_type_t.LINE 5 180) 1 true).1 = true ↔
        (((sampleEnv sector_type_t.LINE 5 180).DistanceBearing 1).1 <
            (sampleEnv sector_type_t.LINE 5 180).FinishRadius ∧ true = true ∧
          approaching (sampleEnv sector_type_t.LINE 5 180).FinishLine
            (relBearing (sampleEnv sector_type_t.LINE 5 180) 1) = false)) ∧
      InFinishSector (sampleEnv sector_type_t.LINE 5 180) 1 true = (true, false) :=
  ⟨rfl, by decide, rfl,
    (InFinishSector_line_crossed_iff (sampleEnv sector_type_t.LINE 5 180) 1 true rfl
      (by decide) (Or.inl rfl)).1, by decide!⟩

/-- C2: for a LINE or FAI-90 finish with valid task data, a tick that does not
report a crossing updates the flag as follows and returns false: inside, not
armed and approaching sets it; not inside clears it; inside, armed and still
approaching, or inside, not armed and not approaching, leave it unchanged. -/
theorem InFinishSector_line_flag_update (env : TaskEnv) (i : Int) (s : Bool)
    (hF : env.ValidFinish = true) (hT : env.ValidTaskPointFast i = true)
    (hk : env.FinishLine = sector_type_t.LINE ∨ env.FinishLine = sector_type_t.FAI90) :
    ((env.DistanceBearing i).1 < env.FinishRadius → s = false →
        approaching env.FinishLine (relBearing env i) = true →
        InFinishSector env i s = (false, true)) ∧
      (¬ (env.DistanceBearing i).1 < env.FinishRadius →
        InFinishSector env i s = (false, false)) ∧
      ((env.DistanceBearing i).1 < env.FinishRadius → s = true →
        approaching env.FinishLine (relBearing env i) = true →
        InFinishSector env i s = (false, s)) ∧
      ((env.DistanceBearing i).1 < env.FinishRadius → s = false →
        approaching env.FinishLine (relBearing env i) = false →
        InFinishSector env i s = (false, s)) ∧
      ((InFinishSector env i s).1 = false →
        (InFinishSector env i s).2 =
          if (env.DistanceBearing i).1 < env.FinishRadius then
            (if s = false ∧ approaching env.FinishLine (relBearing env i) = true then true
             else s)
          else false) := by
  have hc : env.FinishLine ≠ sector_type_t.CIRCLE := by
    rcases hk with h | h <;> simp [h]
  rw [InFinishSector_of_valid env i s hF hT, if_neg hc]
  simp only [inrange]
  by_cases hd : (env.DistanceBearing i).1 < env.FinishRadius <;>
    cases s <;> cases approaching env.FinishLine (relBearing env i) <;> simp [hd]

/-- C2, at a concrete input: an FAI-90 finish, the aircraft inside and flying
towards the finish point (relative bearing 10), flag not set. -/
theorem InFinishSector_line_flag_update_witness :
    (sampleEnv sector_type_t.FAI90 5 10).ValidFinish = true ∧
      (sampleEnv sector_type_t.FAI90 5 10).ValidTaskPointFast 1 = true ∧
      (sampleEnv sector_type_t.FAI90 5 10).FinishLine = sector_type_t.FAI90 ∧
      ((sampleEnv sector_type_t.FAI90 5 10).DistanceBearing 1).1 <
        (sampleEnv sector_type_t.FAI90 5 10).FinishRadius ∧
      approaching (sampleEnv sector_type_t.FAI90 5 10).FinishLine
        (relBearing (sampleEnv sector_type_t.FAI90 5 10) 1) = true ∧
      InFinishSector (sampleEnv sector_type_t.FAI90 5 10) 1 false = (false, true) :=
  ⟨rfl, by decide, rfl, by decide!, by decide!,
    (InFinishSector_line_flag_update (sampleEnv sector_type_t.FAI90 5 10) 1 false rfl
      (by decide) (Or.inr rfl)).1 (by decide!) rfl (by decide!)⟩

/-! ## CIRCLE finish, the radius test and the validity tests -/

/-- C3: for a CIRCLE finish with valid task data, `InFinishSector` returns true
if and only if the distance is below `FinishRadius` on that tick, the result is
the same for every prior value of the flag, and when the aircraft is not inside
the flag is cleared. -/
theorem InFinishSector_circle (env : TaskEnv) (i : Int) (s : Bool)
    (hF : env.ValidFinish = true) (hT : env.ValidTaskPointFast i = true)
    (hk : env.FinishLine = sector_type_t.CIRCLE) :
    ((InFinishSector env i s).1 = true ↔ (env.DistanceBearing i).1 < env.FinishRadius) ∧
      (∀ s2 : Bool, (InFinishSector env i s2).1 = (InFinishSector env i s).1) ∧
      (¬ (env.DistanceBearing i).1 < env.FinishRadius → (InFinishSector env i s).2 = false) := by
  refine ⟨?_, ?_, ?_⟩
  · rw [InFinishSector_of_valid env i s hF hT, if_pos hk]
    simp [inrange]
  · intro s2
    rw [InFinishSector_of_valid env i s hF hT, InFinishSector_of_valid env i s2 hF hT,
      if_pos hk, if_pos hk]
  · intro hd
    rw [InFinishSector_of_valid env i s hF hT, if_pos hk]
    simp [inrange, hd]

/-- C3, at a concrete input: a CIRCLE finish, the aircraft at distance 5 of a
radius 1000, flag set. -/
theorem InFinishSector_circle_witness :
    (sampleEnv sector_type_t.CIRCLE 5 0).ValidFinish = true ∧
      (sampleEnv sector_type_t.CIRCLE 5 0).ValidTaskPointFast 1 = true ∧
      (sampleEnv sector_type_t.CIRCLE 5 0).FinishLine = sector_type_t.CIRCLE ∧
      ((InFinishSector (sampleEnv sector_type_t.CIRCLE 5 0) 1 true).1 = true ↔
        ((sampleEnv sector_type_t.CIRCLE 5 0).DistanceBearing 1).1 <
          (sampleEnv sector_type_t.CIRCLE 5 0).FinishRadius) ∧
      (InFinishSector (sampleEnv sector_type_t.CIRCLE 5 0) 1 false).1 =
        (InFinishSector (sampleEnv sector_type_t.CIRCLE 5 0) 1 true).1 :=
  ⟨rfl, by decide, rfl,
    (InFinishSector_circle (sampleEnv sector_type_t.CIRCLE 5 0) 1 true rfl (by decide) rfl).1,
    (InFinishSector_circle (sampleEnv sector_type_t.CIRCLE 5 0) 1 true rfl (by decide) rfl).2.1
      false⟩

/-- C4 as stated fails when a validity test fails: with `ValidFinish` false
the call returns at lines 23-25, before the flag is cleared at lines 41-43, so
for a fix outside the radius an armed flag is still set afterwards. -/
theorem InFinishSector_outside_invalid_counterexample :
    invalidFinishEnv.FinishRadius ≤ (invalidFinishEnv.DistanceBearing 1).1 ∧
      InFinishSector invalidFinishEnv 1 true = (false, true) ∧
      ¬ ((InFinishSector invalidFinishEnv 1 true).2 = false) := by
  decide!

/-- C4, amended: for every sector kind, every bearing and every prior flag
value, a fix whose distance to the finish point is greater than or equal to
the radius makes `InFinishSector` return false; on valid task data
(`ValidFinish` and `ValidTaskPointFast(i)` hold) the flag is false afterwards,
and when a validity test fails the flag is left as it was. -/
theorem InFinishSector_outside (env : TaskEnv) (i : Int) (s : Bool)
    (hd : env.FinishRadius ≤ (env.DistanceBearing i).1) :
    (InFinishSector env i s).1 = false ∧
      (env.ValidFinish = true → env.ValidTaskPointFast i = true →
        InFinishSector env i s = (false, false)) ∧
      (env.ValidFinish = false ∨ env.ValidTaskPointFast i = false →
        InFinishSector env i s = (false, s)) := by
  have hn : inrange env i = false := by simp [inrange, hd]
  have hv : env.ValidFinish = true → env.ValidTaskPointFast i = true →
      InFinishSector env i s = (false, false) := by
    intro hF hT
    rw [InFinishSector_of_valid env i s hF hT]
    split <;> simp [hn]
  refine ⟨?_, hv, InFinishSector_of_invalid env i s⟩
  by_cases hvalid : env.ValidFinish = true ∧ env.ValidTaskPointFast i = true
  · rw [hv hvalid.1 hvalid.2]
  · have hi : env.ValidFinish = false ∨ env.ValidTaskPointFast i = false := by
      cases hF : env.ValidFinish <;> cases hT : env.ValidTaskPointFast i <;> simp_all
    rw [InFinishSector_of_invalid env i s hi]

/-- C4 amended, at a concrete input: a LINE finish on valid task data, the
aircraft at exactly the radius (distance 1000), flag set. -/
theorem InFinishSector_outside_witness :
    (sampleEnv sector_type_t.LINE 1000 0).ValidFinish = true ∧
      (sampleEnv sector_type_t.LINE 1000 0).ValidTaskPointFast 1 = true ∧
      (sampleEnv sector_type_t.LINE 1000 0).FinishRadius ≤
        ((sampleEnv sector_type_t.LINE 1000 0).DistanceBearing 1).1 ∧
      InFinishSector (sampleEnv sector_type_t.LINE 1000 0) 1 true = (false, false) :=
  ⟨rfl, by decide, le_refl _,
    (InFinishSector_outside (sampleEnv sector_type_t.LINE 1000 0) 1 true (le_refl _)).2.1 rfl
      (by decide)⟩

/-- C5: if `ValidFinish` fails or `ValidTaskPointFast(i)` is false,
`InFinishSector` returns false and leaves the flag as it was before the call,
for every fix and every prior flag value. -/
theorem InFinishSector_invalid (env : TaskEnv) (i : Int) (s : Bool)
    (h : env.ValidFinish = false ∨ env.ValidTaskPointFast i = false) :
    InFinishSector env i s = (false, s) := by
  unfold InFinishSector
  rcases h with h | h
  · simp [h]
  · cases hF : env.ValidFinish <;> simp [h]

/-- C5, at a concrete input: task index 12 is not a valid task point of the
sample environment; the flag, set before, stays set. -/
theorem InFinishSector_invalid_witness :
    (sampleEnv sector_type_t.LINE 5 180).ValidTaskPointFast 12 = false ∧
      InFinishSector (sampleEnv sector_type_t.LINE 5 180) 12 true = (false, true) :=
  ⟨by decide, InFinishSector_invalid (sampleEnv sector_type_t.LINE 5 180) 12 true
    (Or.inr (by decide))⟩

/-! ## Consecutive ticks -/

/-- C6: for a LINE finish and every prior flag value, if one valid tick is
inside and approaching and the next valid tick is inside and not approaching,
then the first tick returns false and the second returns true. -/
theorem InFinishSector_line_two_ticks (env1 env2 : TaskEnv) (i : Int) (s : Bool)
    (hF1 : env1.ValidFinish = true) (hT1 : env1.ValidTaskPointFast i = true)
    (hk1 : env1.FinishLine = sector_type_t.LINE)
    (hF2 : env2.ValidFinish = true) (hT2 : env2.ValidTaskPointFast i = true)
    (hk2 : env2.FinishLine = sector_type_t.LINE)
    (hd1 : (env1.DistanceBearing i).1 < env1.FinishRadius)
    (ha1 : approaching sector_type_t.LINE (relBearing env1 i) = true)
    (hd2 : (env2.DistanceBearing i).1 < env2.FinishRadius)
    (ha2 : approaching sector_type_t.LINE (relBearing env2 i) = false) :
    (InFinishSector env1 i s).1 = false ∧
      (InFinishSector env2 i (InFinishSector env1 i s).2).1 = true := by
  rw [InFinishSector_of_valid env1 i s hF1 hT1,
    InFinishSector_of_valid env2 i _ hF2 hT2, hk1, hk2]
  simp [inrange, hd1, hd2, ha1, ha2]

/-- C6, at a concrete input: a LINE finish, first tick at relative bearing 0,
second tick at relative bearing 180, both at distance 5 of a radius 1000. -/
theorem InFinishSector_line_two_ticks_witness :
    approaching sector_type_t.LINE (relBearing (sampleEnv sector_type_t.LINE 5 0) 1) = true ∧
      approaching sector_type_t.LINE (relBearing (sampleEnv sector_type_t.LINE 5 180) 1) = false ∧
      (InFinishSector (sampleEnv sector_type_t.LINE 5 0) 1 false).1 = false ∧
      (InFinishSector (sampleEnv sector_type_t.LINE 5 180) 1
        (InFinishSector (sampleEnv sector_type_t.LINE 5 0) 1 false).2).1 = true :=
  ⟨by decide!, by decide!,
    InFinishSector_line_two_ticks (sampleEnv sector_type_t.LINE 5 0)
      (sampleEnv sector_type_t.LINE 5 180) 1 false rfl (by decide) rfl rfl (by decide) rfl
      (by decide!) (by decide!) (by decide!) (by decide!)⟩

/-- C7 as stated fails for a CIRCLE finish: evaluated twice on the same fix
inside the radius, both evaluations return true. -/
theorem InFinishSector_same_fix_circle_counterexample :
    (InFinishSector (sampleEnv sector_type_t.CIRCLE 5 0) 1 false).1 = true ∧
      (InFinishSector (sampleEnv sector_type_t.CIRCLE 5 0) 1
        (InFinishSector (sampleEnv sector_type_t.CIRCLE 5 0) 1 false).2).1 = true := by
  decide!

/-- C7, amended: for a LINE or FAI-90 finish, every fix, every validity of the
task data and every prior flag value, if `InFinishSector` is evaluated twice in
a row on the same fix and task data, the second evaluation returns false when
the first one returned true. -/
theorem InFinishSector_same_fix_no_second_crossing (env : TaskEnv) (i : Int) (s : Bool)
    (hk : env.FinishLine = sector_type_t.LINE ∨ env.FinishLine = sector_type_t.FAI90)
    (h1 : (InFinishSector env i s).1 = true) :
    (InFinishSector env i (InFinishSector env i s).2).1 = false := by
  have hc : env.FinishLine ≠ sector_type_t.CIRCLE := by
    rcases hk with h | h <;> simp [h]
  by_cases hv : env.ValidFinish = true ∧ env.ValidTaskPointFast i = true
  · rw [InFinishSector_of_valid env i s hv.1 hv.2, if_neg hc] at h1 ⊢
    rw [InFinishSector_of_valid env i _ hv.1 hv.2, if_neg hc]
    revert h1
    cases inrange env i <;> cases s <;>
      cases approaching env.FinishLine (relBearing env i) <;> simp
  · have hi : env.ValidFinish = false ∨ env.ValidTaskPointFast i = false := by
      cases hF : env.ValidFinish <;> cases hT : env.ValidTaskPointFast i <;> simp_all
    rw [InFinishSector_of_invalid env i _ hi]

/-- C7 amended, at a concrete input: a LINE finish, the aircraft inside and
flying away with the flag set; the first evaluation reports the crossing, the
second does not. -/
theorem InFinishSector_same_fix_no_second_crossing_witness :
    (InFinishSector (sampleEnv sector_type_t.LINE 5 180) 1 true).1 = true ∧
      (InFinishSector (sampleEnv sector_type_t.LINE 5 180) 1
        (InFinishSector (sampleEnv sector_type_t.LINE 5 180) 1 true).2).1 = false :=
  ⟨by decide!, InFinishSector_same_fix_no_second_crossing
    (sampleEnv sector_type_t.LINE 5 180) 1 true (Or.inl rfl) (by decide!)⟩

/-! ## The approach test -/

/-- C8: for a LINE finish, with `b = AngleLimit180(bearing - InBound)` the
normalised relative bearing, the aircraft is treated as approaching if and only
if `-90 <= b <= 90`, both bounds included; on a valid tick inside the radius
this is what arms the flag and what withholds the crossing. -/
theorem approaching_line_iff (env : TaskEnv) (i : Int)
    (hF : env.ValidFinish = true) (hT : env.ValidTaskPointFast i = true)
    (hk : env.FinishLine = sector_type_t.LINE)
    (hd : (env.DistanceBearing i).1 < env.FinishRadius) :
    (approaching env.FinishLine (relBearing env i) = true ↔
        (-90 ≤ relBearing env i ∧ relBearing env i ≤ 90)) ∧
      ((InFinishSector env i false).2 = true ↔
        (-90 ≤ relBearing env i ∧ relBearing env i ≤ 90)) ∧
      ((InFinishSector env i true).1 = true ↔
        ¬ (-90 ≤ relBearing env i ∧ relBearing env i ≤ 90)) := by
  rw [InFinishSector_of_valid env i false hF hT, InFinishSector_of_valid env i true hF hT, hk,
    ← approaching_LINE_eq_true_iff]
  simp [inrange, hd]

/-- C8, at a concrete input: a LINE finish with the aircraft inside at a
relative bearing of exactly 90 degrees, which counts as approaching. -/
theorem approaching_line_iff_witness :
    relBearing (sampleEnv sector_type_t.LINE 5 90) 1 = 90 ∧
      ((sampleEnv sector_type_t.LINE 5 90).DistanceBearing 1).1 <
        (sampleEnv sector_type_t.LINE 5 90).FinishRadius ∧
      (approaching (sampleEnv sector_type_t.LINE 5 90).FinishLine
          (relBearing (sampleEnv sector_type_t.LINE 5 90) 1) = true ↔
        (-90 ≤ relBearing (sampleEnv sector_type_t.LINE 5 90) 1 ∧
          relBearing (sampleEnv sector_type_t.LINE 5 90) 1 ≤ 90)) :=
  ⟨by decide!, by decide!,
    (approaching_line_iff (sampleEnv sector_type_t.LINE 5 90) 1 rfl (by decide) rfl
      (by decide!)).1⟩

/-- C9 as stated fails at the bounds: at a normalised relative bearing of
exactly 135 (and of exactly -135), which is outside (135, 180] ∪ [-180, -135),
an FAI-90 finish does not treat the aircraft as approaching, and with the flag
set the call reports the crossing. -/
theorem approaching_fai_bound_counterexample :
    relBearing (sampleEnv sector_type_t.FAI90 5 135) 1 = 135 ∧
      relBearing (sampleEnv sector_type_t.FAI90 5 (-135)) 1 = -135 ∧
      ¬ (approaching sector_type_t.FAI90 (relBearing (sampleEnv sector_type_t.FAI90 5 135) 1)
            = true ↔
          ¬ ((135 < relBearing (sampleEnv sector_type_t.FAI90 5 135) 1 ∧
                relBearing (sampleEnv sector_type_t.FAI90 5 135) 1 ≤ 180) ∨
              (-180 ≤ relBearing (sampleEnv sector_type_t.FAI90 5 135) 1 ∧
                relBearing (sampleEnv sector_type_t.FAI90 5 135) 1 < -135))) ∧
      approaching sector_type_t.FAI90 (relBearing (sampleEnv sector_type_t.FAI90 5 135) 1)
        = false ∧
      approaching sector_type_t.FAI90 (relBearing (sampleEnv sector_type_t.FAI90 5 (-135)) 1)
        = false ∧
      InFinishSector (sampleEnv sector_type_t.FAI90 5 135) 1 true = (true, false) := by
  have h1 : relBearing (sampleEnv sector_type_t.FAI90 5 135) 1 = 135 := by decide!
  have h2 : relBearing (sampleEnv sector_type_t.FAI90 5 (-135)) 1 = -135 := by decide!
  refine ⟨h1, h2, ?_, ?_, ?_, by decide!⟩
  · rw [h1]
    have : approaching sector_type_t.FAI90 135 = false := by decide!
    rw [this]
    norm_num
  · rw [h1]; decide!
  · rw [h2]; decide!

/-- C9, amended: for an FAI-90 finish, with `b` the normalised relative
bearing, the aircraft is treated as approaching if and only if `b` is not in
[135, 180] ∪ [-180, -135], that is `-135 < b < 135`; `b = 135` and `b = -135`
count as not approaching. On a valid tick inside the radius this is what arms
the flag and what withholds the crossing. -/
theorem approaching_fai_iff (env : TaskEnv) (i : Int)
    (hF : env.ValidFinish = true) (hT : env.ValidTaskPointFast i = true)
    (hk : env.FinishLine = sector_type_t.FAI90)
    (hd : (env.DistanceBearing i).1 < env.FinishRadius) :
    (approaching env.FinishLine (relBearing env i) = true ↔
        ¬ ((135 ≤ relBearing env i ∧ relBearing env i ≤ 180) ∨
            (-180 ≤ relBearing env i ∧ relBearing env i ≤ -135))) ∧
      (approaching env.FinishLine (relBearing env i) = true ↔
        (-135 < relBearing env i ∧ relBearing env i < 135)) ∧
      ((InFinishSector env i false).2 = true ↔
        (-135 < relBearing env i ∧ relBearing env i < 135)) ∧
      ((InFinishSector env i true).1 = true ↔
        ¬ (-135 < relBearing env i ∧ relBearing env i < 135)) := by
  have hm := AngleLimit180_mem ((env.DistanceBearing i).2 - env.InBound i)
  have hiff := approaching_FAI90_eq_true_iff (relBearing env i)
  rw [InFinishSector_of_valid env i false hF hT, InFinishSector_of_valid env i true hF hT, hk]
  refine ⟨?_, hiff, ?_, ?_⟩
  · rw [hiff]
    unfold relBearing
    constructor
    · rintro ⟨h1, h2⟩ (⟨h3, _⟩ | ⟨_, h4⟩)
      · exact absurd h2 (not_lt.mpr h3)
      · exact absurd h1 (not_lt.mpr h4)
    · intro h
      constructor
      · by_contra hc
        exact h (Or.inr ⟨le_of_lt hm.1, not_lt.mp hc⟩)
      · by_contra hc
        exact h (Or.inl ⟨not_lt.mp hc, hm.2⟩)
  · rw [← hiff]
    simp [inrange, hd]
  · rw [← hiff]
    simp [inrange, hd]

/-- C9 amended, at a concrete input: an FAI-90 finish with the aircraft inside
at a relative bearing of 134 degrees, which counts as approaching. -/
theorem approaching_fai_iff_witness :
    relBearing (sampleEnv sector_type_t.FAI90 5 134) 1 = 134 ∧
      ((sampleEnv sector_type_t.FAI90 5 134).DistanceBearing 1).1 <
        (sampleEnv sector_type_t.FAI90 5 134).FinishRadius ∧
      (approaching (sampleEnv sector_type_t.FAI90 5 134).FinishLine
          (relBearing (sampleEnv sector_type_t.FAI90 5 134) 1) = true ↔
        (-135 < relBearing (sampleEnv sector_type_t.FAI90 5 134) 1 ∧
          relBearing (sampleEnv sector_type_t.FAI90 5 134) 1 < 135)) :=
  ⟨by decide!, by decide!,
    (approaching_fai_iff (sampleEnv sector_type_t.FAI90 5 134) 1 rfl (by decide) rfl
      (by decide!)).2.1⟩

/-! ## One flag for all task indices -/

/-- The two branches of lines 35-42 take the larger of the scaled speed and of
the floor. -/
lemma SpeedToFly_VOptnew_eq_max (env : SpeedEnv) :
    SpeedToFly_VOptnew env =
      max (env.STF env.MACCREADY env.NettoVario (SpeedToFly_HeadWind env) *
        env.CRUISE_EFFICIENCY) (SpeedToFly_floor env) := by
  unfold SpeedToFly_VOptnew SpeedToFly_floor SpeedToFly_n
  by_cases h : env.NettoVario > env.MACCREADY <;> simp [h]

/-- The head wind of lines 20-27 as one conditional. -/
lemma SpeedToFly_HeadWind_eq (env : SpeedEnv) :
    SpeedToFly_HeadWind env =
      if env.FinalGlide = true ∧ env.ValidTaskPoint = true ∧ env.HeadWind ≠ -999 then
        env.HeadWind
      else 0 := by
  unfold SpeedToFly_HeadWind
  cases env.FinalGlide <;> cases env.ValidTaskPoint <;>
    by_cases h : env.HeadWind = -999 <;> simp [h]

/-- The filter with factor 0.6 stays above 0.4 times the old value plus 0.6
times any lower bound of the new one. -/
lemma LowPassFilter_ge (p f b : ℚ) (h : b ≤ f) :
    p * (1 - 0.6) + b * 0.6 ≤ LowPassFilter p f 0.6 := by
  unfold LowPassFilter
  have h6 : (0 : ℚ) ≤ 0.6 := by norm_num
  have := mul_le_mul_of_nonneg_right h h6
  linarith

/-- C11: the head wind passed to `GlidePolar::STF` is `Calculated->HeadWind`
if `FinalGlide` is true, `ValidTaskPoint(ActiveWayPoint)` holds and `HeadWind`
is not the sentinel -999, and it is 0 in every other case, whatever the
supplied head wind. -/
theorem SpeedToFly_headwind_gating (env : SpeedEnv) :
    SpeedToFly_HeadWind env =
        (if env.FinalGlide = true ∧ env.ValidTaskPoint = true ∧ env.HeadWind ≠ -999 then
          env.HeadWind
        else 0) ∧
      SpeedToFly env =
        LowPassFilter env.VOpt
          (max (env.STF env.MACCREADY env.NettoVario
              (if env.FinalGlide = true ∧ env.ValidTaskPoint = true ∧ env.HeadWind ≠ -999 then
                env.HeadWind
              else 0) * env.CRUISE_EFFICIENCY)
            (SpeedToFly_floor env)) 0.6 := by
  refine ⟨SpeedToFly_HeadWind_eq env, ?_⟩
  unfold SpeedToFly
  rw [SpeedToFly_VOptnew_eq_max, SpeedToFly_HeadWind_eq]

/-- C12: the speed before the filter is the larger of
`CRUISE_EFFICIENCY * STF(MACCREADY, NettoVario, headwind)` and of the floor,
where the floor is `Vminsink * sqrt(|n|)` with `n = AccelZ` when
`AccelerationAvailable` and `n = Gload` otherwise if `NettoVario > MACCREADY`,
and `Vminsink` if `NettoVario <= MACCREADY`; the scaling comes before the
floor, so this speed is never below the floor. -/
theorem SpeedToFly_floored_speed (env : SpeedEnv) :
    (env.NettoVario > env.MACCREADY →
        SpeedToFly_VOptnew env =
          max (env.CRUISE_EFFICIENCY *
              env.STF env.MACCREADY env.NettoVario (SpeedToFly_HeadWind env))
            (env.Vminsink *
              env.sqrt |if env.AccelerationAvailable = true then env.AccelZ else env.Gload|)) ∧
      (env.NettoVario ≤ env.MACCREADY →
        SpeedToFly_VOptnew env =
          max (env.CRUISE_EFFICIENCY *
              env.STF env.MACCREADY env.NettoVario (SpeedToFly_HeadWind env))
            env.Vminsink) ∧
      (env.NettoVario > env.MACCREADY →
        env.Vminsink *
            env.sqrt |if env.AccelerationAvailable = true then env.AccelZ else env.Gload| ≤
          SpeedToFly_VOptnew env) ∧
      (env.NettoVario ≤ env.MACCREADY → env.Vminsink ≤ SpeedToFly_VOptnew env) := by
  have hm := SpeedToFly_VOptnew_eq_max env
  rw [mul_comm] at hm
  refine ⟨?_, ?_, ?_, ?_⟩
  · intro h
    rw [hm]
    simp [SpeedToFly_floor, SpeedToFly_n, h]
  · intro h
    rw [hm]
    simp [SpeedToFly_floor, not_lt.mpr h]
  · intro h
    rw [hm]
    simp [SpeedToFly_floor, SpeedToFly_n, h]
  · intro h
    rw [hm]
    simp [SpeedToFly_floor, not_lt.mpr h]

/-- C12, at concrete inputs: in rising air under a load factor of 4 the floor
is 22 * 2 = 44 and lifts the polar speed of 25 to 44; in sinking air the
floor is 22 and the polar speed of 37 stays. -/
theorem SpeedToFly_floored_speed_witness :
    liftSpeedEnv.NettoVario > liftSpeedEnv.MACCREADY ∧
      sampleSpeedEnv.NettoVario ≤ sampleSpeedEnv.MACCREADY ∧
      SpeedToFly_VOptnew liftSpeedEnv = 44 ∧
      liftSpeedEnv.Vminsink *
          liftSpeedEnv.sqrt
            |if liftSpeedEnv.AccelerationAvailable = true then liftSpeedEnv.AccelZ
              else liftSpeedEnv.Gload| ≤
        SpeedToFly_VOptnew liftSpeedEnv ∧
      SpeedToFly_VOptnew sampleSpeedEnv = 37 ∧
      sampleSpeedEnv.Vminsink ≤ SpeedToFly_VOptnew sampleSpeedEnv :=
  ⟨by decide!, by decide!, by decide!,
    (SpeedToFly_floored_speed liftSpeedEnv).2.2.1 (by decide!), by decide!,
    (SpeedToFly_floored_speed sampleSpeedEnv).2.2.2 (by decide!)⟩

/-- C13 as stated fails: with a previous speed to fly of 0 (start-up), a
minimum sink speed of 40 and a polar speed of 37 in sinking air, the speed
before the filter is 40 and the new `VOpt` is 0 * 0.4 + 40 * 0.6 = 24, below
the minimum sink speed. -/
theorem SpeedToFly_floor_law_counterexample :
    slowSpeedEnv.NettoVario ≤ slowSpeedEnv.MACCREADY ∧
      SpeedToFly_VOptnew slowSpeedEnv = 40 ∧
      SpeedToFly slowSpeedEnv = 24 ∧
      ¬ (SpeedToFly slowSpeedEnv ≥ slowSpeedEnv.Vminsink) := by
  decide!

/-- C13, amended: for all inputs whose previous smoothed speed is at or above
the floor of the tick, the new `VOpt` is at or above that floor:
`Vminsink * sqrt(|load factor|)` when `NettoVario > MACCREADY`, `Vminsink`
otherwise. For every previous smoothed speed `p` the new `VOpt` is at least
`p * (1 - 0.6) + floor * 0.6`. -/
theorem SpeedToFly_floor_law (env : SpeedEnv) :
    (env.NettoVario > env.MACCREADY →
        env.Vminsink *
            env.sqrt |if env.AccelerationAvailable = true then env.AccelZ else env.Gload| ≤
          env.VOpt →
        SpeedToFly env ≥
          env.Vminsink *
            env.sqrt |if env.AccelerationAvailable = true then env.AccelZ else env.Gload|) ∧
      (env.NettoVario ≤ env.MACCREADY → env.Vminsink ≤ env.VOpt →
        SpeedToFly env ≥ env.Vminsink) ∧
      SpeedToFly env ≥ env.VOpt * (1 - 0.6) + SpeedToFly_floor env * 0.6 := by
  have hm := SpeedToFly_VOptnew_eq_max env
  have hf : SpeedToFly_floor env ≤ SpeedToFly_VOptnew env := by
    rw [hm]; exact le_max_right _ _
  have hg := LowPassFilter_ge env.VOpt (SpeedToFly_VOptnew env) (SpeedToFly_floor env) hf
  have key : SpeedToFly_floor env ≤ env.VOpt → SpeedToFly_floor env ≤ SpeedToFly env := by
    intro hp
    have h4 : (0 : ℚ) ≤ 1 - 0.6 := by norm_num
    have := mul_le_mul_of_nonneg_right hp h4
    unfold SpeedToFly
    linarith
  refine ⟨?_, ?_, hg⟩
  · intro h hp
    have hfl : SpeedToFly_floor env = env.Vminsink *
        env.sqrt |if env.AccelerationAvailable = true then env.AccelZ else env.Gload| := by
      simp [SpeedToFly_floor, SpeedToFly_n, h]
    rw [← hfl] at hp ⊢
    exact key hp
  · intro h hp
    have hfl : SpeedToFly_floor env = env.Vminsink := by
      simp [SpeedToFly_floor, not_lt.mpr h]
    rw [← hfl] at hp ⊢
    exact key hp

/-- C13 amended, at a concrete input: in sinking air with a previous speed to
fly of 40 and a minimum sink speed of 22 the new `VOpt`, 38.2, is above 22. -/
theorem SpeedToFly_floor_law_witness :
    sampleSpeedEnv.NettoVario ≤ sampleSpeedEnv.MACCREADY ∧
      sampleSpeedEnv.Vminsink ≤ sampleSpeedEnv.VOpt ∧
      SpeedToFly sampleSpeedEnv = 191 / 5 ∧
      SpeedToFly sampleSpeedEnv ≥ sampleSpeedEnv.Vminsink :=
  ⟨by decide!, by decide!, by decide!,
    (SpeedToFly_floor_law sampleSpeedEnv).2.1 (by decide!) (by decide!)⟩

/-- C14: for every previous smoothed speed `p` and every floored speed `f` the
new `VOpt` is `p * (1 - 0.6) + f * 0.6`; for `p = 40` and `f = 60` it is
52. -/
theorem SpeedToFly_smoothing (env : SpeedEnv) :
    SpeedToFly env = env.VOpt * (1 - 0.6) + SpeedToFly_VOptnew env * 0.6 ∧
      (env.VOpt = 40 → SpeedToFly_VOptnew env = 60 → SpeedToFly env = 52) ∧
      LowPassFilter 40 60 0.6 = 52 := by
  refine ⟨rfl, ?_, ?_⟩
  · intro hp hf
    unfold SpeedToFly LowPassFilter
    rw [hp, hf]
    norm_num
  · unfold LowPassFilter
    norm_num

/-- C14, at a concrete input: a previous speed to fly of 40 and a minimum sink
speed of 60 above the polar speed give a floored speed of 60 and a new `VOpt`
of 52. -/
theorem SpeedToFly_smoothing_witness :
    smoothSpeedEnv.VOpt = 40 ∧ SpeedToFly_VOptnew smoothSpeedEnv = 60 ∧
      SpeedToFly smoothSpeedEnv = 52 :=
  ⟨rfl, by decide!, (SpeedToFly_smoothing smoothSpeedEnv).2.1 rfl (by decide!)⟩

/-- C15 as stated fails: `SpeedToFly` uses the value returned by
`GlidePolar::Vminsink()` as it is. With a minimum sink speed of -5 and a polar
speed of -10 the floor is -5 and the speed before the filter is -5. -/
theorem SpeedToFly_no_clamp_counterexample :
    negSinkEnv.Vminsink = -5 ∧ negSinkEnv.NettoVario ≤ negSinkEnv.MACCREADY ∧
      SpeedToFly_floor negSinkEnv = -5 ∧
      SpeedToFly_VOptnew negSinkEnv = -5 ∧
      ¬ (0 < SpeedToFly_floor negSinkEnv) := by
  decide!

/-- C15, amended: `SpeedToFly` does not clamp the minimum sink speed. For
every value returned by `GlidePolar::Vminsink()`, zero and negative ones
included, the speed before the filter is the larger of the scaled polar speed
and of that value itself when `NettoVario <= MACCREADY`, and of that value
times `sqrt(|n|)` when `NettoVario > MACCREADY`; so it is strictly positive
exactly when the scaled polar speed or the floor is, and it is strictly
positive whenever the minimum sink speed is strictly positive and, in the
load-adjusted case, `sqrt(|n|)` is strictly positive. -/
theorem SpeedToFly_floor_unclamped (env : SpeedEnv) :
    (env.NettoVario ≤ env.MACCREADY →
        SpeedToFly_VOptnew env =
            max (env.STF env.MACCREADY env.NettoVario (SpeedToFly_HeadWind env) *
              env.CRUISE_EFFICIENCY) env.Vminsink ∧
          (0 < SpeedToFly_VOptnew env ↔
            0 < env.STF env.MACCREADY env.NettoVario (SpeedToFly_HeadWind env) *
                env.CRUISE_EFFICIENCY ∨
              0 < env.Vminsink)) ∧
      (env.NettoVario > env.MACCREADY →
        SpeedToFly_VOptnew env =
            max (env.STF env.MACCREADY env.NettoVario (SpeedToFly_HeadWind env) *
              env.CRUISE_EFFICIENCY)
              (env.Vminsink *
                env.sqrt |if env.AccelerationAvailable = true then env.AccelZ
                  else env.Gload|) ∧
          (0 < SpeedToFly_VOptnew env ↔
            0 < env.STF env.MACCREADY env.NettoVario (SpeedToFly_HeadWind env) *
                env.CRUISE_EFFICIENCY ∨
              0 < env.Vminsink *
                env.sqrt |if env.AccelerationAvailable = true then env.AccelZ
                  else env.Gload|)) ∧
      (0 < env.Vminsink →
        (env.NettoVario > env.MACCREADY →
          0 < env.sqrt |if env.AccelerationAvailable = true then env.AccelZ
            else env.Gload|) →
        0 < SpeedToFly_VOptnew env) := by
  have h1 : env.NettoVario ≤ env.MACCREADY →
      SpeedToFly_VOptnew env =
        max (env.STF env.MACCREADY env.NettoVario (SpeedToFly_HeadWind env) *
          env.CRUISE_EFFICIENCY) env.Vminsink := by
    intro h
    simp [SpeedToFly_VOptnew, not_lt.mpr h]
  have h2 : env.NettoVario > env.MACCREADY →
      SpeedToFly_VOptnew env =
        max (env.STF env.MACCREADY env.NettoVario (SpeedToFly_HeadWind env) *
          env.CRUISE_EFFICIENCY)
          (env.Vminsink *
            env.sqrt |if env.AccelerationAvailable = true then env.AccelZ
              else env.Gload|) := by
    intro h
    simp [SpeedToFly_VOptnew, h]
  refine ⟨?_, ?_, ?_⟩
  · intro h
    refine ⟨h1 h, ?_⟩
    rw [h1 h]
    exact lt_max_iff
  · intro h
    refine ⟨h2 h, ?_⟩
    rw [h2 h]
    exact lt_max_iff
  · intro hV hs
    by_cases h : env.NettoVario > env.MACCREADY
    · rw [h2 h]
      exact lt_max_iff.mpr (Or.inr (mul_pos hV (hs h)))
    · rw [h1 (not_lt.mp h)]
      exact lt_max_iff.mpr (Or.inr hV)

/-- C15 amended, at concrete inputs: with a minimum sink speed of -5 and a
polar speed of -10 in sinking air the speed before the filter is
`max (-10) (-5) = -5`; in rising air with a minimum sink speed of 22 and a
load factor of 4 it is strictly positive. -/
theorem SpeedToFly_floor_unclamped_witness :
    negSinkEnv.NettoVario ≤ negSinkEnv.MACCREADY ∧ negSinkEnv.Vminsink = -5 ∧
      SpeedToFly_VOptnew negSinkEnv =
        max (negSinkEnv.STF negSinkEnv.MACCREADY negSinkEnv.NettoVario
          (SpeedToFly_HeadWind negSinkEnv) * negSinkEnv.CRUISE_EFFICIENCY)
          negSinkEnv.Vminsink ∧
      0 < liftSpeedEnv.Vminsink ∧ liftSpeedEnv.NettoVario > liftSpeedEnv.MACCREADY ∧
      0 < SpeedToFly_VOptnew liftSpeedEnv :=
  ⟨by decide!, by decide!,
    ((SpeedToFly_floor_unclamped negSinkEnv).1 (by decide!)).1,
    by decide!, by decide!,
    (SpeedToFly_floor_unclamped liftSpeedEnv).2.2 (by decide!) (fun _ => by decide!)⟩

/-- C11, at concrete inputs: on final glide towards a valid task point the
supplied head wind of 10 is used; in cruise it is 0. -/
theorem SpeedToFly_headwind_gating_witness :
    SpeedToFly_HeadWind finalGlideEnv = 10 ∧ SpeedToFly_HeadWind sampleSpeedEnv = 0 ∧
      sampleSpeedEnv.HeadWind = 10 :=
  ⟨(SpeedToFly_headwind_gating finalGlideEnv).1.trans (by decide!),
    (SpeedToFly_headwind_gating sampleSpeedEnv).1.trans (by decide!), rfl⟩

/-! ## Countdown text -/

/-- The values of `TimeToTextDown` in terms of the seconds `a = |d|`, with the
division and remainder of the integers. -/
lemma TimeToTextDown_eq (d : Int) :
    TimeToTextDown d =
      if |d| % 86400 < 3600 then
        { negative := decide (d < 0), first := |d| % 3600 / 60, second := |d| % 60,
          returned := false }
      else
        { negative := decide (d < 0), first := |d| % 86400 / 3600,
          second := |d| % 3600 / 60, returned := true } := by
  have ha : (0 : Int) ≤ |d| := abs_nonneg d
  unfold TimeToTextDown
  generalize |d| = a at ha
  have h1 : Int.tmod a (3600 * 24) = a % 86400 := by
    rw [Int.tmod_eq_emod ha (by norm_num)]; norm_num
  have hdd : (0 : Int) ≤ a % 86400 := Int.emod_nonneg _ (by norm_num)
  have h2 : Int.tdiv (a % 86400) 3600 = a % 86400 / 3600 :=
    Int.tdiv_eq_ediv hdd (by norm_num)
  have h3 : Int.tdiv (a % 86400) 60 = a % 86400 / 60 :=
    Int.tdiv_eq_ediv hdd (by norm_num)
  have hh : (0 : Int) ≤ a % 86400 / 3600 := Int.ediv_nonneg hdd (by norm_num)
  have h4 : Int.tmod (a % 86400 / 3600) 24 = a % 86400 / 3600 % 24 :=
    Int.tmod_eq_emod hh (by norm_num)
  simp only [h1, h2, h3, h4]
  by_cases hlt : a % 86400 < 3600
  · have hz : a % 86400 / 3600 % 24 = 0 := by omega
    rw [if_pos hz, if_pos hlt]
    congr 1
    · omega
    · omega
  · have hz : ¬ a % 86400 / 3600 % 24 = 0 := by omega
    rw [if_neg hz, if_neg hlt]
    congr 1
    · omega
    · omega

/-- C16: for every `int` `d` other than `INT_MIN`, `TimeToTextDown` returns
true if and only if `|d| mod 86400 >= 3600`, that is when the hours are not
zero; when it returns true it prints hours and minutes, and when it returns
false it prints minutes and seconds. -/
theorem TimeToTextDown_returns_hours (d : Int) (_hlo : -2147483648 < d)
    (_hhi : d ≤ 2147483647) :
    ((TimeToTextDown d).returned = true ↔ 3600 ≤ |d| % 86400) ∧
      ((TimeToTextDown d).returned = true ↔ |d| % 86400 / 3600 ≠ 0) ∧
      ((TimeToTextDown d).returned = true →
        (TimeToTextDown d).first = |d| % 86400 / 3600 ∧
          (TimeToTextDown d).second = |d| % 3600 / 60) ∧
      ((TimeToTextDown d).returned = false →
        (TimeToTextDown d).first = |d| % 3600 / 60 ∧
          (TimeToTextDown d).second = |d| % 60) := by
  rw [TimeToTextDown_eq]
  have ha : (0 : Int) ≤ |d| := abs_nonneg d
  generalize |d| = a at ha
  by_cases hlt : a % 86400 < 3600
  · simp only [if_pos hlt]
    refine ⟨?_, ?_, ?_, ?_⟩
    · simp; omega
    · simp; omega
    · simp
    · simp
  · simp only [if_neg hlt]
    refine ⟨?_, ?_, ?_, ?_⟩
    · simp; omega
    · simp; omega
    · simp
    · simp

/-- C16, at concrete inputs: 3599 seconds print as 59:59 and return false,
-3600 seconds print as -01:00 and return true. -/
theorem TimeToTextDown_returns_hours_witness :
    TimeToTextDown 3599 =
        { negative := false, first := 59, second := 59, returned := false } ∧
      TimeToTextDown (-3600) =
        { negative := true, first := 1, second := 0, returned := true } ∧
      ((TimeToTextDown (-3600)).returned = true ↔ 3600 ≤ |(-3600 : Int)| % 86400) :=
  ⟨by decide!, by decide!,
    (TimeToTextDown_returns_hours (-3600) (by decide) (by decide)).1⟩

/-! ## Screen geometry and scale -/

/-- A ratio below `2.112 * 2^k` leaves the loop of `GetScreenGeometry` within
`k + 1` rounds. -/
lemma GetScreenGeometry_loop_isSome (k : Nat) :
    ∀ ratio : ℚ, ratio < 2.112 * 2 ^ k → (GetScreenGeometry_loop (k + 1) ratio).isSome = true := by
  induction k with
  | zero =>
    intro ratio h
    have h2 : ratio < 2.112 := by simpa using h
    unfold GetScreenGeometry_loop
    split_ifs <;> simp_all
  | succ k ih =>
    intro ratio h
    unfold GetScreenGeometry_loop
    split_ifs <;> try simp
    apply ih
    rw [pow_succ] at h
    linarith

/-- The function `GetScreenGeometry` returns a geometry for every pair of
positive `unsigned int` sizes. -/
lemma GetScreenGeometry_isSome (x y : Nat) (hx : 0 < x) (hy : 0 < y)
    (hx2 : x < 2 ^ 32) (hy2 : y < 2 ^ 32) : (GetScreenGeometry x y).isSome = true := by
  unfold GetScreenGeometry
  rw [if_pos ⟨hx, hy⟩]
  apply GetScreenGeometry_loop_isSome 63
  have hxq : (x : ℚ) < 2 ^ 32 := by exact_mod_cast hx2
  have hyq : (y : ℚ) < 2 ^ 32 := by exact_mod_cast hy2
  have hx1 : (1 : ℚ) ≤ x := by exact_mod_cast hx
  have hy1 : (1 : ℚ) ≤ y := by exact_mod_cast hy
  have hbig : (2 : ℚ) ^ 32 < 2.112 * 2 ^ 63 := by norm_num
  split_ifs
  · have : (x : ℚ) / y ≤ x := div_le_self (by linarith) hy1
    linarith
  · have : (y : ℚ) / x ≤ y := div_le_self (by linarith) hx1
    linarith

/-- C17: `GetScreenGeometry` classifies the example resolutions as its ratio
table states: 320x240, 640x480 and 800x600 give `SCREEN_GEOMETRY_43`, 800x480
gives `SCREEN_GEOMETRY_53`, 480x272, 960x540, 1280x720 and 1920x1080 give
`SCREEN_GEOMETRY_169`, 480x234 gives `SCREEN_GEOMETRY_21`, and each gives the
same result with width and height swapped. -/
theorem GetScreenGeometry_examples :
    (GetScreenGeometry 320 240 = some ScreenGeometry_t.SCREEN_GEOMETRY_43 ∧
        GetScreenGeometry 640 480 = some ScreenGeometry_t.SCREEN_GEOMETRY_43 ∧
        GetScreenGeometry 800 600 = some ScreenGeometry_t.SCREEN_GEOMETRY_43 ∧
        GetScreenGeometry 800 480 = some ScreenGeometry_t.SCREEN_GEOMETRY_53 ∧
        GetScreenGeometry 480 272 = some ScreenGeometry_t.SCREEN_GEOMETRY_169 ∧
        GetScreenGeometry 960 540 = some ScreenGeometry_t.SCREEN_GEOMETRY_169 ∧
        GetScreenGeometry 1280 720 = some ScreenGeometry_t.SCREEN_GEOMETRY_169 ∧
        GetScreenGeometry 1920 1080 = some ScreenGeometry_t.SCREEN_GEOMETRY_169 ∧
        GetScreenGeometry 480 234 = some ScreenGeometry_t.SCREEN_GEOMETRY_21) ∧
      (GetScreenGeometry 240 320 = some ScreenGeometry_t.SCREEN_GEOMETRY_43 ∧
        GetScreenGeometry 480 640 = some ScreenGeometry_t.SCREEN_GEOMETRY_43 ∧
        GetScreenGeometry 600 800 = some ScreenGeometry_t.SCREEN_GEOMETRY_43 ∧
        GetScreenGeometry 480 800 = some ScreenGeometry_t.SCREEN_GEOMETRY_53 ∧
        GetScreenGeometry 272 480 = some ScreenGeometry_t.SCREEN_GEOMETRY_169 ∧
        GetScreenGeometry 540 960 = some ScreenGeometry_t.SCREEN_GEOMETRY_169 ∧
        GetScreenGeometry 720 1280 = some ScreenGeometry_t.SCREEN_GEOMETRY_169 ∧
        GetScreenGeometry 1080 1920 = some ScreenGeometry_t.SCREEN_GEOMETRY_169 ∧
        GetScreenGeometry 234 480 = some ScreenGeometry_t.SCREEN_GEOMETRY_21) := by
  refine ⟨⟨?_, ?_, ?_, ?_, ?_, ?_, ?_, ?_, ?_⟩, ?_, ?_, ?_, ?_, ?_, ?_, ?_, ?_, ?_⟩ <;> decide!

/-- C18, what the code does: on a 1920x1080 screen `ScreenDScale` is 4.5, whose
integer part is 4, and `ScreenScale` is `max(1, lround(4.5)) = 5`; on an
800x480 screen `ScreenScale` is 2, and on a 600x800 screen (`ScreenDScale`
2.5) it is 3. -/
theorem InitLKScreen_ScreenScale_rounds :
    (InitLKScreen 1920 1080).ScreenDScale = 4.5 ∧
      ⌊(InitLKScreen 1920 1080).ScreenDScale⌋ = 4 ∧
      (InitLKScreen 1920 1080).ScreenScale = 5 ∧
      (InitLKScreen 800 480).ScreenScale = 2 ∧
      (InitLKScreen 600 800).ScreenDScale = 2.5 ∧
      (InitLKScreen 600 800).ScreenScale = 3 := by
  refine ⟨?_, ?_, ?_, ?_, ?_, ?_⟩ <;> decide!

/-- C19: for every screen size `InitLKScreen` sets `ScreenDScale` to the ratio
of the shortest side to 240, clamped below at 0.83: `ScreenDScale >= 0.83`
always and `ScreenDScale = min(X, Y) / 240` whenever `min(X, Y) >= 200`; it
sets `ScreenScale >= 1`, and `ScreenIntScale` is true if and only if
`ScreenScale` equals `ScreenDScale`. -/
theorem InitLKScreen_scale (X Y : Int) :
    (InitLKScreen X Y).ScreenDScale = max (0.83 : ℚ) (((min X Y : Int) : ℚ) / 240) ∧
      (0.83 : ℚ) ≤ (InitLKScreen X Y).ScreenDScale ∧
      (200 ≤ min X Y → (InitLKScreen X Y).ScreenDScale = ((min X Y : Int) : ℚ) / 240) ∧
      1 ≤ (InitLKScreen X Y).ScreenScale ∧
      ((InitLKScreen X Y).ScreenIntScale = true ↔
        (((InitLKScreen X Y).ScreenScale : Int) : ℚ) = (InitLKScreen X Y).ScreenDScale) := by
  have h240 : (240.0 : ℚ) = 240 := by norm_num
  refine ⟨?_, ?_, ?_, ?_, ?_⟩
  · simp only [InitLKScreen, h240]
  · simp only [InitLKScreen]
    exact le_max_left _ _
  · intro h
    simp only [InitLKScreen, h240]
    apply max_eq_right
    have hq : (200 : ℚ) ≤ ((min X Y : Int) : ℚ) := by exact_mod_cast h
    rw [le_div_iff₀ (by norm_num)]
    linarith
  · simp only [InitLKScreen]
    exact le_max_left _ _
  · simp only [InitLKScreen]
    exact decide_eq_true_iff

/-- C19, at concrete inputs: a 266x200 screen has `ScreenDScale` 200/240 and an
integer scale of 1 that does not match it; an 800x480 screen has
`ScreenDScale` 2 and `ScreenIntScale` true. -/
theorem InitLKScreen_scale_witness :
    (200 : Int) ≤ min 266 200 ∧
      (InitLKScreen 266 200).ScreenDScale = (((min 266 200 : Int) : Int) : ℚ) / 240 ∧
      (InitLKScreen 266 200).ScreenScale = 1 ∧
      (InitLKScreen 266 200).ScreenIntScale = false ∧
      (InitLKScreen 800 480).ScreenDScale = 2 ∧
      (InitLKScreen 800 480).ScreenIntScale = true :=
  ⟨by decide, (InitLKScreen_scale 266 200).2.2.1 (by decide), by decide!, by decide!,
    by decide!, by decide!⟩

/-- The conversion to `int` of a fifth of a non-negative number whose square
is within 1 of `n`, for `n` between the squares of `5 * k` and `5 * (k + 1)`. -/
lemma truncToInt_sqrt_fifth (r n : ℚ) (k : Int) (hr : 0 ≤ r) (hacc : |r * r - n| ≤ 1)
    (hk : 0 ≤ k) (hlo : (5 * (k : ℚ)) * (5 * (k : ℚ)) + 1 < n)
    (hhi : n + 1 < (5 * ((k : ℚ) + 1)) * (5 * ((k : ℚ) + 1))) :
    truncToInt (r * 10 / 50) = k := by
  have hkq : (0 : ℚ) ≤ k := by exact_mod_cast hk
  obtain ⟨h1, h2⟩ := abs_le.mp hacc
  have hrlo : 5 * (k : ℚ) ≤ r := by
    by_contra hc
    have hc2 : r < 5 * (k : ℚ) := not_le.mp hc
    have : r * r ≤ (5 * (k : ℚ)) * (5 * (k : ℚ)) :=
      mul_le_mul (le_of_lt hc2) (le_of_lt hc2) hr (by linarith)
    linarith
  have hrhi : r < 5 * ((k : ℚ) + 1) := by
    by_contra hc
    have hc2 : 5 * ((k : ℚ) + 1) ≤ r := not_lt.mp hc
    have : (5 * ((k : ℚ) + 1)) * (5 * ((k : ℚ) + 1)) ≤ r * r :=
      mul_le_mul hc2 hc2 (by linarith) hr
    linarith
  have hq : r * 10 / 50 = r / 5 := by ring
  have hnn : (0 : ℚ) ≤ r / 5 := div_nonneg hr (by norm_num)
  unfold truncToInt
  rw [hq, if_pos hnn, Int.floor_eq_iff]
  constructor
  · rw [le_div_iff₀ (by norm_num)]; linarith
  · rw [div_lt_iff₀ (by norm_num)]; linarith

/-- C20: with `DpiSize = 0` and the default `LcdSize = 50` on a platform
without a native query, the estimate
`trunc(sqrt(X*X + Y*Y) * 10 / LcdSize)` of `GetScreenDensity` is 186 for
800x480 and 110 for 480x272, for every square root function whose values at
870400 and 304384 are non-negative with a square within 1 of the argument;
with `DpiSize` non-zero the function returns `DpiSize`. -/
theorem GetScreenDensity_default (sqrt : ℚ → ℚ)
    (h1 : 0 ≤ sqrt 870400) (h2 : |sqrt 870400 * sqrt 870400 - 870400| ≤ 1)
    (h3 : 0 ≤ sqrt 304384) (h4 : |sqrt 304384 * sqrt 304384 - 304384| ≤ 1) :
    GetScreenDensity sqrt 0 50 800 480 = 186 ∧
      GetScreenDensity sqrt 0 50 480 272 = 110 ∧
      (∀ (DpiSize LcdSize : Nat) (X Y : Int), DpiSize ≠ 0 →
        GetScreenDensity sqrt DpiSize LcdSize X Y = (DpiSize : Int)) := by
  refine ⟨?_, ?_, ?_⟩
  · have e : (((800 * 800 + 480 * 480 : Int)) : ℚ) = 870400 := by norm_num
    simp only [GetScreenDensity, ne_eq, not_true_eq_false, if_false, e, Nat.cast_ofNat]
    exact truncToInt_sqrt_fifth _ 870400 186 h1 h2 (by norm_num) (by norm_num) (by norm_num)
  · have e : (((480 * 480 + 272 * 272 : Int)) : ℚ) = 304384 := by norm_num
    simp only [GetScreenDensity, ne_eq, not_true_eq_false, if_false, e, Nat.cast_ofNat]
    exact truncToInt_sqrt_fifth _ 304384 110 h3 h4 (by norm_num) (by norm_num) (by norm_num)
  · intro DpiSize LcdSize X Y h
    simp [GetScreenDensity, h]

/-- C20, at a concrete square root: with the square root rounded down to three
decimals the estimates are 186 and 110, and a forced `DpiSize` of 96 is
returned as it is. -/
theorem GetScreenDensity_default_witness :
    |sqrtMilli 870400 * sqrtMilli 870400 - 870400| ≤ 1 ∧
      |sqrtMilli 304384 * sqrtMilli 304384 - 304384| ≤ 1 ∧
      GetScreenDensity sqrtMilli 0 50 800 480 = 186 ∧
      GetScreenDensity sqrtMilli 0 50 480 272 = 110 ∧
      GetScreenDensity sqrtMilli 96 50 800 480 = 96 :=
  ⟨by decide!, by decide!,
    (GetScreenDensity_default sqrtMilli (by decide!) (by decide!) (by decide!) (by decide!)).1,
    (GetScreenDensity_default sqrtMilli (by decide!) (by decide!) (by decide!) (by decide!)).2.1,
    (GetScreenDensity_default sqrtMilli (by decide!) (by decide!) (by decide!)
      (by decide!)).2.2 96 50 800 480 (by decide)⟩

/-! ## Sequences of evaluations -/

/-- A call that leaves the flag set either found it set or armed it. -/
lemma InFinishSector_flag_true (env : TaskEnv) (i : Int) (s : Bool)
    (h : (InFinishSector env i s).2 = true) : s = true ∨ armingTick (env, i) := by
  by_cases hv : env.ValidFinish = true ∧ env.ValidTaskPointFast i = true
  · rw [InFinishSector_of_valid env i s hv.1 hv.2] at h
    by_cases hc : env.FinishLine = sector_type_t.CIRCLE
    · rw [if_pos hc] at h
      left
      simp only [Bool.and_eq_true] at h
      exact h.2
    · rw [if_neg hc] at h
      right
      simp only [Bool.and_eq_true, inrange, decide_eq_true_eq] at h
      exact ⟨hv.1, hv.2, hc, h.1, h.2⟩
  · have hi : env.ValidFinish = false ∨ env.ValidTaskPointFast i = false := by
      cases hF : env.ValidFinish <;> cases hT : env.ValidTaskPointFast i <;> simp_all
    rw [InFinishSector_of_invalid env i s hi] at h
    exact Or.inl h

/-- A flag that is set after a sequence of calls was set before it or armed by
one of the calls. -/
lemma InFinishSector_flagAfter_true (ticks : List (TaskEnv × Int)) :
    ∀ s : Bool, InFinishSector_flagAfter ticks s = true →
      s = true ∨ ∃ t ∈ ticks, armingTick t := by
  induction ticks with
  | nil =>
    intro s h
    exact Or.inl h
  | cons t rest ih =>
    intro s h
    have h2 : InFinishSector_flagAfter rest (InFinishSector t.1 t.2 s).2 = true := h
    rcases ih _ h2 with h3 | ⟨u, hu, hu2⟩
    · rcases InFinishSector_flag_true t.1 t.2 s h3 with h4 | h4
      · exact Or.inl h4
      · exact Or.inr ⟨t, List.mem_cons_self _ _, h4⟩
    · exact Or.inr ⟨u, List.mem_cons_of_mem _ hu, hu2⟩

/-- A LINE or FAI-90 finish reports a crossing only when the flag was set, and
clears it. -/
lemma InFinishSector_crossing_flag (env : TaskEnv) (i : Int) (s : Bool)
    (hc : env.FinishLine ≠ sector_type_t.CIRCLE) (h : (InFinishSector env i s).1 = true) :
    s = true ∧ (InFinishSector env i s).2 = false := by
  by_cases hv : env.ValidFinish = true ∧ env.ValidTaskPointFast i = true
  · rw [InFinishSector_of_valid env i s hv.1 hv.2, if_neg hc] at h ⊢
    revert h
    cases inrange env i <;> cases s <;>
      cases approaching env.FinishLine (relBearing env i) <;> simp
  · have hi : env.ValidFinish = false ∨ env.ValidTaskPointFast i = false := by
      cases hF : env.ValidFinish <;> cases hT : env.ValidTaskPointFast i <;> simp_all
    rw [InFinishSector_of_invalid env i s hi] at h
    simp at h

/-- C21: the flag starts false, so from the initial state the first evaluation
of a LINE or FAI-90 finish never reports a crossing, for every fix; and a
crossing reported after any sequence of evaluations from the initial state has
an earlier evaluation in that sequence that was valid, inside and
approaching. -/
theorem InFinishSector_first_evaluation (env : TaskEnv) (i : Int)
    (hk : env.FinishLine = sector_type_t.LINE ∨ env.FinishLine = sector_type_t.FAI90) :
    (InFinishSector env i false).1 = false ∧
      (∀ ticks : List (TaskEnv × Int),
        (InFinishSector env i (InFinishSector_flagAfter ticks false)).1 = true →
          ∃ t ∈ ticks, armingTick t) := by
  have hc : env.FinishLine ≠ sector_type_t.CIRCLE := by
    rcases hk with h | h <;> simp [h]
  constructor
  · cases hr : (InFinishSector env i false).1
    · rfl
    · exact absurd (InFinishSector_crossing_flag env i false hc hr).1 (by simp)
  · intro ticks h
    have hs := (InFinishSector_crossing_flag env i _ hc h).1
    rcases InFinishSector_flagAfter_true ticks false hs with h0 | h1
    · exact absurd h0 (by simp)
    · exact h1

/-- C21, at a concrete input: a LINE finish with the aircraft inside and
flying away; the very first evaluation returns false, and after one
evaluation inside and approaching the same fix reports the crossing. -/
theorem InFinishSector_first_evaluation_witness :
    (sampleEnv sector_type_t.LINE 5 180).FinishLine = sector_type_t.LINE ∧
      (InFinishSector (sampleEnv sector_type_t.LINE 5 180) 1 false).1 = false ∧
      (InFinishSector (sampleEnv sector_type_t.LINE 5 180) 1
        (InFinishSector_flagAfter [(sampleEnv sector_type_t.LINE 5 0, 1)] false)).1 = true :=
  ⟨rfl, (InFinishSector_first_evaluation (sampleEnv sector_type_t.LINE 5 180) 1
    (Or.inl rfl)).1, by decide!⟩

/-- C22: for a LINE or FAI-90 finish `InFinishSector` never returns true on two
consecutive evaluations, whatever the fixes; after a reported crossing, a
further crossing after any sequence of evaluations has an evaluation in that
sequence that was valid, inside and approaching. -/
theorem InFinishSector_no_consecutive_crossings (env1 env2 : TaskEnv) (i1 i2 : Int)
    (s : Bool)
    (hk1 : env1.FinishLine = sector_type_t.LINE ∨ env1.FinishLine = sector_type_t.FAI90)
    (hk2 : env2.FinishLine = sector_type_t.LINE ∨ env2.FinishLine = sector_type_t.FAI90)
    (h1 : (InFinishSector env1 i1 s).1 = true) :
    (InFinishSector env2 i2 (InFinishSector env1 i1 s).2).1 = false ∧
      (∀ mid : List (TaskEnv × Int),
        (InFinishSector env2 i2
            (InFinishSector_flagAfter mid (InFinishSector env1 i1 s).2)).1 = true →
          ∃ t ∈ mid, armingTick t) := by
  have hc1 : env1.FinishLine ≠ sector_type_t.CIRCLE := by
    rcases hk1 with h | h <;> simp [h]
  have hc2 : env2.FinishLine ≠ sector_type_t.CIRCLE := by
    rcases hk2 with h | h <;> simp [h]
  have hf := (InFinishSector_crossing_flag env1 i1 s hc1 h1).2
  rw [hf]
  constructor
  · cases hr : (InFinishSector env2 i2 false).1
    · rfl
    · exact absurd (InFinishSector_crossing_flag env2 i2 false hc2 hr).1 (by simp)
  · intro mid h
    have hs := (InFinishSector_crossing_flag env2 i2 _ hc2 h).1
    rcases InFinishSector_flagAfter_true mid false hs with h0 | h3
    · exact absurd h0 (by simp)
    · exact h3

/-- C22, at a concrete input: a LINE finish, flag set, two evaluations inside
and flying away; the first reports the crossing, the second does not. -/
theorem InFinishSector_no_consecutive_crossings_witness :
    (InFinishSector (sampleEnv sector_type_t.LINE 5 180) 1 true).1 = true ∧
      (InFinishSector (sampleEnv sector_type_t.LINE 7 170) 1
        (InFinishSector (sampleEnv sector_type_t.LINE 5 180) 1 true).2).1 = false :=
  ⟨by decide!, (InFinishSector_no_consecutive_crossings (sampleEnv sector_type_t.LINE 5 180)
    (sampleEnv sector_type_t.LINE 7 170) 1 1 true (Or.inl rfl) (Or.inl rfl) (by decide!)).1⟩

/-! ## Smoothing, units and coordinates -/

/-- The filter with factor 0.6 returns a value between its two arguments. -/
lemma LowPassFilter_between (p f : ℚ) :
    min p f ≤ LowPassFilter p f 0.6 ∧ LowPassFilter p f 0.6 ≤ max p f := by
  have h6 : (0.6 : ℚ) = 3 / 5 := by norm_num
  unfold LowPassFilter
  rw [h6]
  rcases le_total p f with h | h
  · rw [min_eq_left h, max_eq_right h]
    constructor <;> linarith
  · rw [min_eq_right h, max_eq_left h]
    constructor <;> linarith

/-- C23: the smoothed speed written by `SpeedToFly` lies between the previous
smoothed speed and the floored speed, `min(p, f) <= VOpt <= max(p, f)`; hence
if the previous `VOpt` is at or above the floor of the tick, the new `VOpt` is
at or above that floor too. -/
theorem SpeedToFly_between (env : SpeedEnv) :
    min env.VOpt (SpeedToFly_VOptnew env) ≤ SpeedToFly env ∧
      SpeedToFly env ≤ max env.VOpt (SpeedToFly_VOptnew env) ∧
      (SpeedToFly_floor env ≤ env.VOpt → SpeedToFly_floor env ≤ SpeedToFly env) := by
  have hb := LowPassFilter_between env.VOpt (SpeedToFly_VOptnew env)
  refine ⟨hb.1, hb.2, ?_⟩
  intro hp
  have hf : SpeedToFly_floor env ≤ SpeedToFly_VOptnew env := by
    rw [SpeedToFly_VOptnew_eq_max]
    exact le_max_right _ _
  exact le_trans (le_min hp hf) hb.1

/-- C23, at a concrete input: previous speed 40, floored speed 37, floor 22;
the new `VOpt`, 38.2, lies between 37 and 40 and above the floor. -/
theorem SpeedToFly_between_witness :
    SpeedToFly_floor sampleSpeedEnv ≤ sampleSpeedEnv.VOpt ∧
      SpeedToFly_VOptnew sampleSpeedEnv = 37 ∧ sampleSpeedEnv.VOpt = 40 ∧
      SpeedToFly sampleSpeedEnv = 191 / 5 ∧
      SpeedToFly_floor sampleSpeedEnv ≤ SpeedToFly sampleSpeedEnv :=
  ⟨by decide!, by decide!, rfl, by decide!,
    (SpeedToFly_between sampleSpeedEnv).2.2 (by decide!)⟩

/-- Every `ToUserFact` of the table is non-zero. -/
lemma UnitDescriptors_ToUserFact_ne_zero (unit : Units_t) :
    (UnitDescriptors unit).ToUserFact ≠ 0 := by
  cases unit <;> norm_num [UnitDescriptors]

/-- C24: for every unit of the table `UnitDescriptors` and every value `v`,
`ToSys(unit, ToUser(unit, v)) = v` and `ToUser(unit, ToSys(unit, v)) = v` in
exact arithmetic, and every `ToUserFact` of the table is non-zero. -/
theorem Units_round_trip (unit : Units_t) (v : ℚ) :
    ToSys unit (ToUser unit v) = v ∧ ToUser unit (ToSys unit v) = v ∧
      (UnitDescriptors unit).ToUserFact ≠ 0 := by
  have hf := UnitDescriptors_ToUserFact_ne_zero unit
  refine ⟨?_, ?_, hf⟩
  · simp only [ToSys, ToUser]
    field_simp
  · simp only [ToSys, ToUser]
    field_simp

/-- C24, at a concrete input: 273.15 K are 32 degrees Fahrenheit and back. -/
theorem Units_round_trip_witness :
    ToUser Units_t.unGradFahrenheit 273.15 = 32 ∧
      ToSys Units_t.unGradFahrenheit (ToUser Units_t.unGradFahrenheit 273.15) = 273.15 :=
  ⟨by decide!, (Units_round_trip Units_t.unGradFahrenheit 273.15).1⟩

/-- The conversion to `int` of a non-negative number is its floor. -/
lemma truncToInt_of_nonneg (x : ℚ) (h : 0 ≤ x) : truncToInt x = ⌊x⌋ := by
  simp [truncToInt, h]

/-- The decomposition that `LongitudeToDMS` computes. -/
lemma LongitudeToDMS_props (L : ℚ) :
    0 ≤ (LongitudeToDMS L).mm ∧ (LongitudeToDMS L).mm ≤ 59 ∧
      0 ≤ (LongitudeToDMS L).ss ∧ (LongitudeToDMS L).ss ≤ 59 ∧
      (LongitudeToDMS L).dd * 3600 + (LongitudeToDMS L).mm * 60 + (LongitudeToDMS L).ss =
        ⌊|L| * 3600 + 1 / 2⌋ := by
  have ha : (0 : ℚ) ≤ |L| := abs_nonneg L
  have h60 : (60.0 : ℚ) = 60 := by norm_num
  have h05 : (0.5 : ℚ) = 1 / 2 := by norm_num
  simp only [LongitudeToDMS, h60, h05]
  generalize |L| = a at ha
  -- degrees
  have hd := truncToInt_of_nonneg a ha
  have hd1 := Int.floor_le a
  have hd2 := Int.lt_floor_add_one a
  rw [← hd] at hd1 hd2
  clear hd
  generalize truncToInt a = d at hd1 hd2
  -- minutes
  have hx1 : (0 : ℚ) ≤ (a - d) * 60 := by linarith
  have hm := truncToInt_of_nonneg _ hx1
  have hm1 := Int.floor_le ((a - d) * 60)
  have hm2 := Int.lt_floor_add_one ((a - d) * 60)
  rw [← hm] at hm1 hm2
  clear hm
  generalize truncToInt ((a - d) * 60) = m at hm1 hm2
  have hm0 : 0 ≤ m := by
    have : (-1 : ℚ) < (m : ℚ) := by linarith
    have : (-1 : Int) < m := by exact_mod_cast this
    omega
  have hm59 : m ≤ 59 := by
    have : (m : ℚ) < 60 := by linarith
    have : m < 60 := by exact_mod_cast this
    omega
  -- seconds
  have hx2 : (0 : ℚ) ≤ ((a - d) * 60 - m) * 60 + 1 / 2 := by linarith
  have hs := truncToInt_of_nonneg _ hx2
  have hs1 := Int.floor_le (((a - d) * 60 - m) * 60 + 1 / 2)
  have hs2 := Int.lt_floor_add_one (((a - d) * 60 - m) * 60 + 1 / 2)
  rw [← hs] at hs1 hs2
  clear hs
  generalize truncToInt (((a - d) * 60 - m) * 60 + 1 / 2) = sec at hs1 hs2
  have hs0 : 0 ≤ sec := by
    have : (-1 : ℚ) < (sec : ℚ) := by linarith
    have : (-1 : Int) < sec := by exact_mod_cast this
    omega
  have hs60 : sec ≤ 60 := by
    have : (sec : ℚ) < 61 := by linarith
    have : sec < 61 := by exact_mod_cast this
    omega
  have hT : ⌊a * 3600 + 1 / 2⌋ = sec + 3600 * d + 60 * m := by
    rw [Int.floor_eq_iff]
    push_cast
    constructor <;> linarith
  rw [hT]
  split_ifs <;> omega

/-- The function `LatitudeToDMS` computes what `LongitudeToDMS` computes. -/
lemma LatitudeToDMS_eq (L : ℚ) :
    (LatitudeToDMS L).dd = (LongitudeToDMS L).dd ∧
      (LatitudeToDMS L).mm = (LongitudeToDMS L).mm ∧
      (LatitudeToDMS L).ss = (LongitudeToDMS L).ss ∧
      (LatitudeToDMS L).north = (LongitudeToDMS L).east :=
  ⟨rfl, rfl, rfl, rfl⟩

/-- C25: for every longitude `L` within the range of `int`, `LongitudeToDMS`
yields `0 <= mm <= 59` and `0 <= ss <= 59` after its carry steps,
`dd * 3600 + mm * 60 + ss = floor(|L| * 3600 + 1/2)` in exact arithmetic, and
`east` is true exactly when `L >= 0`; `LatitudeToDMS` computes the same
decomposition with `north` in place of `east`. -/
theorem LongitudeToDMS_decomposition (L : ℚ) (_hrange : |L| < 2147483647) :
    (0 ≤ (LongitudeToDMS L).mm ∧ (LongitudeToDMS L).mm ≤ 59 ∧
        0 ≤ (LongitudeToDMS L).ss ∧ (LongitudeToDMS L).ss ≤ 59 ∧
        (LongitudeToDMS L).dd * 3600 + (LongitudeToDMS L).mm * 60 + (LongitudeToDMS L).ss =
          ⌊|L| * 3600 + 1 / 2⌋ ∧
        ((LongitudeToDMS L).east = true ↔ 0 ≤ L)) ∧
      (0 ≤ (LatitudeToDMS L).mm ∧ (LatitudeToDMS L).mm ≤ 59 ∧
        0 ≤ (LatitudeToDMS L).ss ∧ (LatitudeToDMS L).ss ≤ 59 ∧
        (LatitudeToDMS L).dd * 3600 + (LatitudeToDMS L).mm * 60 + (LatitudeToDMS L).ss =
          ⌊|L| * 3600 + 1 / 2⌋ ∧
        ((LatitudeToDMS L).north = true ↔ 0 ≤ L)) ∧
      (LatitudeToDMS L).dd = (LongitudeToDMS L).dd ∧
      (LatitudeToDMS L).mm = (LongitudeToDMS L).mm ∧
      (LatitudeToDMS L).ss = (LongitudeToDMS L).ss ∧
      (LatitudeToDMS L).north = (LongitudeToDMS L).east := by
  obtain ⟨h1, h2, h3, h4, h5⟩ := LongitudeToDMS_props L
  obtain ⟨e1, e2, e3, e4⟩ := LatitudeToDMS_eq L
  have he : (LongitudeToDMS L).east = true ↔ 0 ≤ L := by
    simp only [LongitudeToDMS]
    by_cases hL : L < 0
    · simp [hL]
    · simp [hL, not_lt.mp hL]
  refine ⟨⟨h1, h2, h3, h4, h5, he⟩, ⟨?_, ?_, ?_, ?_, ?_, ?_⟩, e1, e2, e3, e4⟩
  · rw [e2]; exact h1
  · rw [e2]; exact h2
  · rw [e3]; exact h3
  · rw [e3]; exact h4
  · rw [e1, e2, e3]; exact h5
  · rw [e4]; exact he

/-- C25, at concrete inputs: 9 degrees 59 minutes 59.6 seconds west round up
to 10 degrees 0 minutes 0 seconds through both carry steps; 9.5 degrees north
are 9 degrees 30 minutes. -/
theorem LongitudeToDMS_decomposition_witness :
    |(-(9 + 59 / 60 + 59.6 / 3600) : ℚ)| < 2147483647 ∧
      LongitudeToDMS (-(9 + 59 / 60 + 59.6 / 3600)) =
        { dd := 10, mm := 0, ss := 0, east := false } ∧
      LatitudeToDMS 9.5 = { dd := 9, mm := 30, ss := 0, north := true } ∧
      (LongitudeToDMS (-(9 + 59 / 60 + 59.6 / 3600))).dd * 3600 +
          (LongitudeToDMS (-(9 + 59 / 60 + 59.6 / 3600))).mm * 60 +
          (LongitudeToDMS (-(9 + 59 / 60 + 59.6 / 3600))).ss =
        ⌊|(-(9 + 59 / 60 + 59.6 / 3600) : ℚ)| * 3600 + 1 / 2⌋ :=
  ⟨by decide!, by decide!, by decide!,
    (LongitudeToDMS_decomposition (-(9 + 59 / 60 + 59.6 / 3600)) (by decide!)).1.2.2.2.2.1⟩

end LK8000
